import Mathlib

/-!
Verification of the V2X security simulator core (src/backend/simulation.py).

The Python engine is shallowly embedded: dictionaries become structures,
Python floats become exact rationals, the pseudo-random draws and wall-clock
reads become explicit oracle parameters, and the external shortest-path /
geometry services (networkx, math.sqrt, math.atan2) become function
parameters.  Human-readable narrative strings (the Russian log text built by
string templating) are presentation only per the design and are not part of
the embedded state; every field a claim touches is embedded.
-/

namespace V2XSim

/-- Per-defense-level multipliers, DEFENSE_LEVELS in simulation.py
(hack_multiplier, resist_chance, defense_bonus; the display name is
presentation only). -/
structure DefenseLevel where
  hack_multiplier : ℚ
  resist_chance : ℚ
  defense_bonus : ℚ
  deriving Repr, DecidableEq

def DEFENSE_LEVELS_low : DefenseLevel := { hack_multiplier := 3/2, resist_chance := 0, defense_bonus := 7/10 }

def DEFENSE_LEVELS_medium : DefenseLevel := { hack_multiplier := 1, resist_chance := 3/20, defense_bonus := 1 }

def DEFENSE_LEVELS_high : DefenseLevel := { hack_multiplier := 7/20, resist_chance := 2/5, defense_bonus := 3/2 }

/-- DEFENSE_LEVELS.get(key, DEFENSE_LEVELS["medium"]) — total lookup with the
"medium" default used throughout the source. -/
def defenseLevelGet (k : String) : DefenseLevel :=
  if k = "low" then DEFENSE_LEVELS_low
  else if k = "medium" then DEFENSE_LEVELS_medium
  else if k = "high" then DEFENSE_LEVELS_high
  else DEFENSE_LEVELS_medium

/-- ATTACK_SPEED_MULTIPLIERS.get(sophistication, 1.0). -/
def speedMultGet (k : String) : ℚ :=
  if k = "low" then 3/5
  else if k = "medium" then 1
  else if k = "high" then 9/5
  else 1

/-- A low/medium/high keyed table of rationals (used both for defense
effectiveness tables and attack bypass-chance tables). -/
structure TierTable where
  low : ℚ
  medium : ℚ
  high : ℚ
  deriving Repr, DecidableEq

/-- effectiveness.get(sophistication, 50) — lookup with default 50,
exactly as in process_defenses (line 699). -/
def TierTable.get (t : TierTable) (k : String) : ℚ :=
  if k = "low" then t.low
  else if k = "medium" then t.medium
  else if k = "high" then t.high
  else 50

/-- bypass-chance lookup; the source indexes directly
(sophistication_levels[sophistication]) which raises KeyError off-tier, but
every caller passes one of the three tiers, so a total lookup (junk 0
off-tier) is observationally equivalent. -/
def TierTable.getBypass (t : TierTable) (k : String) : ℚ :=
  if k = "low" then t.low
  else if k = "medium" then t.medium
  else if k = "high" then t.high
  else 0

/-- One entry of DEFENSE_TYPES: the machine-relevant fields (name,
description, notes, icon are presentation only). -/
structure DefenseInfo where
  dtype : String
  effectiveness : TierTable
  detection_time : ℚ
  false_positive_rate : ℚ
  applicable_to : List String
  deriving Repr, DecidableEq

/-- DEFENSE_TYPES from simulation.py, in dict insertion order. -/
def DEFENSE_TYPES : List (String × DefenseInfo) := [
  ("cryptographic_verification",
    { dtype := "cryptographic", effectiveness := { low := 90, medium := 70, high := 40 },
      detection_time := 5/100, false_positive_rate := 1/100,
      applicable_to := ["certificate_replay", "message_replay", "sybil"] }),
  ("plausibility_check",
    { dtype := "behavioral", effectiveness := { low := 95, medium := 75, high := 50 },
      detection_time := 1/10, false_positive_rate := 5/100,
      applicable_to := ["position_falsification", "velocity_spoofing", "gps_spoofing", "false_emergency"] }),
  ("trust_management",
    { dtype := "behavioral", effectiveness := { low := 60, medium := 80, high := 85 },
      detection_time := 2, false_positive_rate := 1/10,
      applicable_to := ["position_falsification", "velocity_spoofing", "gps_spoofing", "illusion"] }),
  ("misbehavior_detection",
    { dtype := "behavioral", effectiveness := { low := 85, medium := 70, high := 55 },
      detection_time := 1/2, false_positive_rate := 15/100,
      applicable_to := ["dos_flooding", "illusion", "message_suppression", "sybil"] }),
  ("collaborative_verification",
    { dtype := "collaborative", effectiveness := { low := 70, medium := 85, high := 75 },
      detection_time := 1, false_positive_rate := 8/100,
      applicable_to := ["position_falsification", "gps_spoofing", "sybil", "illusion"] }),
  ("rate_limiting",
    { dtype := "network", effectiveness := { low := 90, medium := 70, high := 45 },
      detection_time := 1/5, false_positive_rate := 5/100,
      applicable_to := ["dos_flooding", "sybil"] }),
  ("timestamp_validation",
    { dtype := "cryptographic", effectiveness := { low := 95, medium := 65, high := 40 },
      detection_time := 5/100, false_positive_rate := 3/100,
      applicable_to := ["message_replay"] })]

/-- One entry of ATTACK_TYPES: severity plus the per-tier bypass chances
(name, category, description, examples, notes, icons, target layers are
presentation only). -/
structure AttackInfo where
  severity : String
  bypass : TierTable
  deriving Repr, DecidableEq

/-- ATTACK_TYPES from simulation.py (keys in dict insertion order, with the
per-sophistication bypass_chance values). -/
def ATTACK_TYPES : List (String × AttackInfo) := [
  ("position_falsification", { severity := "high", bypass := { low := 1/10, medium := 2/5, high := 7/10 } }),
  ("gps_spoofing", { severity := "critical", bypass := { low := 1/5, medium := 1/2, high := 4/5 } }),
  ("sybil", { severity := "high", bypass := { low := 3/20, medium := 9/20, high := 3/4 } }),
  ("message_replay", { severity := "medium", bypass := { low := 1/10, medium := 3/10, high := 3/5 } }),
  ("dos_flooding", { severity := "critical", bypass := { low := 1/5, medium := 1/2, high := 4/5 } }),
  ("velocity_spoofing", { severity := "high", bypass := { low := 1/20, medium := 7/20, high := 13/20 } }),
  ("certificate_replay", { severity := "high", bypass := { low := 1/10, medium := 2/5, high := 7/10 } }),
  ("false_emergency", { severity := "high", bypass := { low := 1/4, medium := 11/20, high := 3/4 } }),
  ("message_suppression", { severity := "critical", bypass := { low := 3/10, medium := 3/5, high := 17/20 } }),
  ("illusion", { severity := "critical", bypass := { low := 1/5, medium := 1/2, high := 9/10 } })]

/-- A vehicle record (the mutable dict built in _generate_initial_vehicles);
fields not read or written by the engine core (color, trust_score, icon) are
carried where claims need them and omitted otherwise. hack_recovery_timer
models v.get("hack_recovery_timer", 0): absent key is the 0 default. -/
structure Vehicle where
  id : String
  vtype : String
  lat : ℚ
  lon : ℚ
  speed : ℚ
  heading : ℚ
  is_attacker : Bool
  max_speed : ℚ
  defense_level : String
  messages_sent : Nat
  messages_received : Nat
  anomalies_detected : Nat
  current_node : String
  target_node : String
  destination : String
  path : List String
  status : String
  progress : ℚ
  hack_progress : ℚ
  target_vehicle : Option String
  waiting_at_light : Bool
  hack_recovery_timer : Int
  deriving Repr, DecidableEq

/-- Traffic light state at one intersection node. -/
structure Light where
  state : String
  timer : Nat
  deriving Repr, DecidableEq

/-- AttackLog dataclass (machine-relevant fields; description, severity
text, icon, educational_context are catalog copies used for display).
bypass_chance is the numeric payload of attack_data. -/
structure AttackLog where
  id : String
  timestamp : ℚ
  attack_type : String
  attacker_id : String
  target_ids : List String
  sophistication : String
  status : String
  bypass_chance : ℚ
  deriving Repr, DecidableEq

/-- DefenseLog dataclass (action_taken, explanation, icon are presentation
only). -/
structure DefenseLog where
  id : String
  timestamp : ℚ
  defense_type : String
  attack_id : String
  attacker_id : String
  success : Bool
  detection_time : ℚ
  confidence : ℚ
  deriving Repr, DecidableEq, Inhabited

/-- AttackOutcome dataclass (impact_description and learning_points are
presentation only). -/
structure AttackOutcome where
  id : String
  timestamp : ℚ
  attack_id : String
  defense_ids : List String
  result : String
  attack_succeeded : Bool
  defenses_triggered : Nat
  deriving Repr, DecidableEq

/-- One value of the active_attacks dict: the attack log reference plus the
scheduling fields added after initiation ("resolution_step" and
"repeat_interval" are absent until set_attack or step sets them, hence
Option). start_time and the detected flag are never read. -/
structure ActiveAttackState where
  attack_log : AttackLog
  resolution_step : Option Nat
  repeat_interval : Option Nat
  deriving Repr, DecidableEq

/-- One entry of the defense_config map: enabled flag and strength. -/
structure DefenseSetting where
  enabled : Bool
  strength : ℚ
  deriving Repr, DecidableEq

/-- The simulation parameter dict. -/
structure Params where
  global_speed_multiplier : ℚ
  message_frequency : ℚ
  detection_sensitivity : ℚ
  communication_range : ℚ
  deriving Repr, DecidableEq

/-- A BSM beacon message emitted during step(). -/
structure BSM where
  id : String
  sender_id : String
  timestamp : ℚ
  lat : ℚ
  lon : ℚ
  speed : ℚ
  heading : ℚ
  deriving Repr, DecidableEq

/-- An anomaly journal entry (the reason field in the source is a formatted
human-readable string; here a stable tag stands for each of the four
templates). -/
structure Anomaly where
  id : String
  timestamp : ℚ
  sender : String
  atype : Option String
  reason : String
  severity : String
  deriving Repr, DecidableEq

/-- A V2V proximity event recorded by the pairwise scan (keys "from" and
"to" in the source dict). -/
structure V2V where
  from_id : String
  to_id : String
  distance : ℚ
  deriving Repr, DecidableEq

/-- The mutable SimulationEngine state (the fields the engine core reads or
writes; the road graph itself is an external service, see Geo). -/
structure SimState where
  is_running : Bool
  step_count : Nat
  active_attack : Option String
  attack_sophistication : String
  defense_config : String → DefenseSetting
  vehicles : List Vehicle
  traffic_lights : List (String × Light)
  attack_logs : List AttackLog
  defense_logs : List DefenseLog
  outcome_logs : List AttackOutcome
  active_attacks : List (String × ActiveAttackState)
  params : Params
  v2v_messages : List V2V
  anomaly_detections : List Anomaly

/-- Oracles for every nondeterministic input the engine consumes: the PRNG
draws (keyed by the id of the entity the draw is made for), the wall clock,
and the numeric library calls that leave the rationals. -/
structure Oracles where
  /-- random.random() * 100 success roll for a defense key (line 708). -/
  rolls : String → ℚ
  /-- random.uniform(-0.02, 0.05) detection-time noise (line 729). -/
  jitter : String → ℚ
  /-- uuid hex for a DefenseLog id, keyed by defense key. -/
  freshDef : String → String
  /-- uuid hex for an AttackOutcome id, keyed by attack id. -/
  freshOut : String → String
  /-- uuid hex for a new attack id, keyed by initiation context. -/
  freshAtk : String → String
  /-- time.time(). -/
  now : ℚ
  /-- random.randint(30, 60) resolution delay in set_attack (line 598). -/
  initDelay : String → Nat
  /-- random.randint(40, 80) resolution delay in step (line 878). -/
  stepDelay : String → Nat
  /-- random.randint(40, 80) repeat interval. -/
  repeatI : String → Nat
  /-- random.choice index into the nearby-target list, keyed by attacker id. -/
  pickIdx : String → Nat
  /-- random.random() resist draw (line 916), keyed by attacker id. -/
  resistRoll : String → ℚ
  /-- random.choice(nodes) new destination, keyed by vehicle id. -/
  pickDest : String → String
  /-- math.sqrt applied to a squared distance. -/
  sqrtQ : ℚ → ℚ
  /-- math.degrees(math.atan2(dx, dy)) percent-mod 360 heading computation. -/
  atan2deg360 : ℚ → ℚ → ℚ

/-- The external road-network services: node positions and the shortest-path
provider (networkx); per the design these are pluggable collaborators. -/
structure Geo where
  nodePos : String → ℚ × ℚ
  getPath : String → String → List String

/-- Association-list lookup, the rendering of a Python dict read. -/
def lookupAssoc {α : Type} (l : List (String × α)) (k : String) : Option α :=
  match l with
  | [] => none
  | p :: rest => if p.1 = k then some p.2 else lookupAssoc rest k

/-- Deleting a key from a dict (del d[k]). -/
def eraseAssoc {α : Type} (l : List (String × α)) (k : String) : List (String × α) :=
  l.filter (fun p => p.1 ≠ k)

/-- Python truthiness of the optional attack-type string: None and the empty
string are falsy. -/
def truthyOpt : Option String → Bool
  | none => false
  | some s => s ≠ ""

/-- Python int() applied to a rational: truncation toward zero. -/
def truncQ (q : ℚ) : Int :=
  if 0 ≤ q then ⌊q⌋ else ⌈q⌉

/-- Euclidean distance between two vehicles, _distance in simulation.py,
with math.sqrt supplied by the oracle. -/
def vdist (ora : Oracles) (v1 v2 : Vehicle) : ℚ :=
  ora.sqrtQ ((v1.lat - v2.lat) ^ 2 + (v1.lon - v2.lon) ^ 2)

/-! ## DefenseEvaluator (process_defenses, lines 664-741) -/

/-- defense_counts[dl] = defense_counts.get(dl, 0) + 1 on an insertion-order
dict that starts as the low/medium/high zero counts. -/
def bumpCount (counts : List (String × Nat)) (k : String) : List (String × Nat) :=
  if counts.any (fun p => p.1 = k) then
    counts.map (fun p => if p.1 = k then (p.1, p.2 + 1) else p)
  else counts ++ [(k, 1)]

/-- max(defense_counts, key=defense_counts.get): the first key, in dict
insertion order, carrying a maximal count. -/
def argmaxFirst (counts : List (String × Nat)) : String :=
  match counts with
  | [] => "medium"
  | c :: rest => (rest.foldl (fun best p => if p.2 > best.2 then p else best) c).1

/-- The modal defense-level tag among the current target vehicles (lines
679-685); default "medium" when there are no targets. -/
def avgDefenseOf (vehicles : List Vehicle) (log : AttackLog) : String :=
  let target_vehicles := vehicles.filter (fun v => v.id ∈ log.target_ids)
  if target_vehicles.isEmpty then "medium"
  else argmaxFirst (target_vehicles.foldl
    (fun counts tv => bumpCount counts tv.defense_level)
    [("low", 0), ("medium", 0), ("high", 0)])

/-- Lines 698-705: adjusted_effectiveness =
min(base_effectiveness * (defense_strength / 100) * defense_level_bonus, 99)
for the defense catalog entry p against the given attack log. -/
def adjustedEffectiveness (cfg : String → DefenseSetting) (vehicles : List Vehicle)
    (log : AttackLog) (p : String × DefenseInfo) : ℚ :=
  min (p.2.effectiveness.get log.sophistication * ((cfg p.1).strength / 100) *
    (defenseLevelGet (avgDefenseOf vehicles log)).defense_bonus) 99

/-- Line 708: defense_success = random.random() * 100 < adjusted_effectiveness,
with the draw supplied by the roll oracle. -/
def defenseRollSucceeds (ora : Oracles) (cfg : String → DefenseSetting)
    (vehicles : List Vehicle) (log : AttackLog) (p : String × DefenseInfo) : Bool :=
  ora.rolls p.1 < adjustedEffectiveness cfg vehicles log p

/-- The DefenseLog built at lines 721-733 for one applicable enabled defense. -/
def mkDefenseLog (ora : Oracles) (cfg : String → DefenseSetting)
    (vehicles : List Vehicle) (log : AttackLog) (p : String × DefenseInfo) : DefenseLog :=
  { id := ora.freshDef p.1
    timestamp := ora.now
    defense_type := p.1
    attack_id := log.id
    attacker_id := log.attacker_id
    success := defenseRollSucceeds ora cfg vehicles log p
    detection_time := p.2.detection_time + ora.jitter p.1
    confidence := adjustedEffectiveness cfg vehicles log p / 100 }

/-- One iteration of the defense loop (lines 691-736): skip defenses whose
applicable_to set misses the attack type or that are disabled; otherwise
emit a DefenseLog and record the key when the roll succeeds. -/
def pdStep (ora : Oracles) (cfg : String → DefenseSetting) (vehicles : List Vehicle)
    (log : AttackLog) (acc : List DefenseLog × List String)
    (p : String × DefenseInfo) : List DefenseLog × List String :=
  if log.attack_type ∉ p.2.applicable_to then acc
  else if !(cfg p.1).enabled then acc
  else
    (acc.1 ++ [mkDefenseLog ora cfg vehicles log p],
     if defenseRollSucceeds ora cfg vehicles log p then acc.2 ++ [p.1] else acc.2)

/-- process_defenses: returns the defense logs created and whether the
attack was blocked (attack_blocked = len(defenses_succeeded) > 0, line 739).
The source also appends each created log to self.defense_logs as it goes;
the single caller (resolve_attack) performs that append on the returned
list, which is observationally the same. -/
def process_defenses (ora : Oracles) (cfg : String → DefenseSetting)
    (vehicles : List Vehicle) (log : AttackLog) : List DefenseLog × Bool :=
  let r := DEFENSE_TYPES.foldl (pdStep ora cfg vehicles log) ([], [])
  (r.1, decide (r.2.length > 0))

/-! ## AttackLifecycleManager (initiate_attack, resolve_attack, set_attack) -/

/-- attack_log.status = newStatus: the AttackLog object held by the active
attack entry is the same object appended to self.attack_logs at initiation,
so the in-place status mutation is rendered as updating the entry of
attack_logs carrying that id. -/
def setLogStatus (logs : List AttackLog) (id status : String) : List AttackLog :=
  logs.map (fun l => if l.id = id then { l with status := status } else l)

/-- initiate_attack (lines 613-662).  newId stands for the fresh uuid-based
attack id.  Returns the id (None when the type is unknown or the attacker id
does not resolve) together with the updated state. -/
def initiate_attack (ora : Oracles) (s : SimState) (attack_type attacker_id soph : String)
    (newId : String) : Option String × SimState :=
  match lookupAssoc ATTACK_TYPES attack_type with
  | none => (none, s)
  | some attack_info =>
    match s.vehicles.find? (fun v => v.id = attacker_id) with
    | none => (none, s)
    | some attacker =>
      let targets := (s.vehicles.filter (fun v =>
        v.id ≠ attacker_id ∧ ¬v.is_attacker ∧
          vdist ora attacker v < s.params.communication_range * 2)).map (fun v => v.id)
      let attack_log : AttackLog :=
        { id := newId
          timestamp := ora.now
          attack_type := attack_type
          attacker_id := attacker_id
          target_ids := targets.take 3
          sophistication := soph
          status := "initiated"
          bypass_chance := attack_info.bypass.getBypass soph }
      (some newId,
        { s with
          attack_logs := s.attack_logs ++ [attack_log]
          active_attacks := s.active_attacks ++
            [(newId, { attack_log := attack_log, resolution_step := none, repeat_interval := none })] })

/-- resolve_attack (lines 743-802): silently returns when the id is not
active; otherwise runs the defenses, writes the terminal status into the
attack log, appends the defense logs and a single AttackOutcome, and deletes
the active entry. -/
def resolve_attack (ora : Oracles) (s : SimState) (attack_id : String) : SimState :=
  match lookupAssoc s.active_attacks attack_id with
  | none => s
  | some attack_state =>
    let attack_log := attack_state.attack_log
    let pd := process_defenses ora s.defense_config s.vehicles attack_log
    let defense_logs := pd.1
    let attack_blocked := pd.2
    let result := if attack_blocked then "blocked" else "full_success"
    let outcome : AttackOutcome :=
      { id := ora.freshOut attack_id
        timestamp := ora.now
        attack_id := attack_id
        defense_ids := defense_logs.map (fun d => d.id)
        result := result
        attack_succeeded := !attack_blocked
        defenses_triggered := defense_logs.length }
    { s with
      attack_logs := setLogStatus s.attack_logs attack_log.id
        (if attack_blocked then "blocked" else "succeeded")
      defense_logs := s.defense_logs ++ defense_logs
      outcome_logs := s.outcome_logs ++ [outcome]
      active_attacks := eraseAssoc s.active_attacks attack_id }

/-- Writes the scheduling fields into an active attack entry
(attack_state["resolution_step"] = ..., attack_state["repeat_interval"] = ...). -/
def setResolution (l : List (String × ActiveAttackState)) (k : String)
    (rs ri : Nat) : List (String × ActiveAttackState) :=
  l.map (fun p => if p.1 = k then
    (p.1, { p.2 with resolution_step := some rs, repeat_interval := some ri }) else p)

/-- set_attack (lines 573-599).  A falsy type (None or the empty string)
clears all vehicle targeting state and cancels every active attack without
any defense evaluation; a truthy type initiates one attack from the first
attacker vehicle and schedules its resolution. -/
def set_attack (ora : Oracles) (s : SimState) (attack_type : Option String)
    (soph : String) : SimState :=
  let s := { s with active_attack := attack_type, attack_sophistication := soph }
  if !truthyOpt attack_type then
    let vehicles := s.vehicles.map (fun v => { v with target_vehicle := none, hack_progress := 0 })
    let attack_logs := s.active_attacks.foldl
      (fun logs p => setLogStatus logs p.2.attack_log.id "cancelled") s.attack_logs
    { s with vehicles := vehicles, attack_logs := attack_logs, active_attacks := [] }
  else
    match attack_type with
    | none => s
    | some t =>
      ((s.vehicles.filter (fun v => v.is_attacker)).take 1).foldl (fun s attacker =>
        let r := initiate_attack ora s t attacker.id soph (ora.freshAtk "set_attack")
        match r.1 with
        | none => r.2
        | some attack_id =>
          let sched := setResolution r.2.active_attacks attack_id
            (r.2.step_count + ora.initDelay attack_id) (ora.repeatI attack_id)
          { r.2 with active_attacks := sched }) s

/-- update_params (lines 602-603): shallow merge of the supplied keys. -/
structure ParamsUpdate where
  global_speed_multiplier : Option ℚ := none
  message_frequency : Option ℚ := none
  detection_sensitivity : Option ℚ := none
  communication_range : Option ℚ := none

def update_params (s : SimState) (u : ParamsUpdate) : SimState :=
  { s with params :=
    { global_speed_multiplier := u.global_speed_multiplier.getD s.params.global_speed_multiplier
      message_frequency := u.message_frequency.getD s.params.message_frequency
      detection_sensitivity := u.detection_sensitivity.getD s.params.detection_sensitivity
      communication_range := u.communication_range.getD s.params.communication_range } }

/-- The snapshot fields claims inspect (get_current_state, lines 815-851;
the remaining fields are verbatim copies of state plus catalog summaries). -/
structure Snapshot where
  step : Nat
  active_attack : Option String
  active_attacks_count : Nat
  attack_sophistication : String
  deriving Repr, DecidableEq

def get_current_state (s : SimState) : Snapshot :=
  { step := s.step_count
    active_attack := s.active_attack
    active_attacks_count := s.active_attacks.length
    attack_sophistication := s.attack_sophistication }

/-! ## VehicleMotionModel (_move_vehicle, lines 1049-1120) -/

/-- Lines 1080-1112 of _move_vehicle: arrival handling once progress
reached 1.0 — snap to the target node's exact position with progress reset
to 0, then either (destination reached) mark arrived, roll a new random
destination, recompute the path and resume moving when it is non-trivial,
or advance to the next node of the current path (recomputing the path when
the current node is not on it), and finally recompute the heading. -/
def arriveAtNode (ora : Oracles) (geo : Geo) (v0 : Vehicle) : Vehicle :=
  let end_pos := geo.nodePos v0.target_node
  let v := { v0 with current_node := v0.target_node, lat := end_pos.1
                     lon := end_pos.2, progress := 0 }
  let v :=
    if v.current_node = v.destination then
      let v := { v with status := "arrived" }
      let newDest := ora.pickDest v.id
      let newPath := geo.getPath v.current_node newDest
      let v := { v with destination := newDest, path := newPath }
      if newPath.length > 1 then
        { v with target_node := newPath.getD 1 v.target_node, status := "moving" }
      else v
    else
      if v.current_node ∈ v.path then
        let current_idx := v.path.findIdx (fun n => n = v.current_node)
        if current_idx + 1 < v.path.length then
          { v with target_node := v.path.getD (current_idx + 1) v.target_node }
        else
          let p := geo.getPath v.current_node v.destination
          { v with
            path := p
            target_node := if p.length > 1 then p.getD 1 v.current_node else v.current_node }
      else
        let p := geo.getPath v.current_node v.destination
        { v with
          path := p
          target_node := if p.length > 1 then p.getD 1 v.current_node else v.current_node }
  let new_end := geo.nodePos v.target_node
  { v with heading := ora.atan2deg360 (new_end.2 - v.lon) (new_end.1 - v.lat) }

/-- _move_vehicle.  Red-light check first (progress > 0.8 and a red light at
the target node stops the vehicle for this tick); otherwise the vehicle
advances by move_dist / edge_dist (progress forced to 1.0 on a zero-length
edge), snapping and re-routing via arriveAtNode when progress reaches 1.0,
and interpolating position otherwise. -/
def _move_vehicle (ora : Oracles) (geo : Geo) (lights : List (String × Light))
    (params : Params) (v : Vehicle) : Vehicle :=
  let redAtTarget : Bool :=
    match lookupAssoc lights v.target_node with
    | some light => decide (light.state = "red")
    | none => false
  let stopAtLight : Bool := decide (v.progress > 8/10) && redAtTarget
  if stopAtLight then { v with waiting_at_light := true }
  else
    let v := { v with waiting_at_light := false }
    let start_pos := geo.nodePos v.current_node
    let end_pos := geo.nodePos v.target_node
    let edge_dist := ora.sqrtQ ((end_pos.1 - start_pos.1) ^ 2 + (end_pos.2 - start_pos.2) ^ 2)
    let speed_kmh := v.max_speed * (6/10)
    let speed_deg_per_sec := (speed_kmh / 111) / 3600
    let move_dist := speed_deg_per_sec * (1/10) * params.global_speed_multiplier
    let v := { v with speed := speed_kmh }
    let v :=
      if edge_dist > 0 then { v with progress := v.progress + move_dist / edge_dist }
      else { v with progress := 1 }
    if v.progress ≥ 1 then arriveAtNode ora geo v
    else
      { v with
        lat := start_pos.1 + (end_pos.1 - start_pos.1) * v.progress
        lon := start_pos.2 + (end_pos.2 - start_pos.2) * v.progress
        heading := ora.atan2deg360 (end_pos.2 - start_pos.2) (end_pos.1 - start_pos.1) }

/-! ## SimulationWorld.step (lines 853-1047) -/

/-- The per-tick context the vehicle loop reads (already-advanced step count
and traffic lights, plus the world fields the loop consults). -/
structure StepCtx where
  step_count : Nat
  active_attack : Option String
  attack_sophistication : String
  params : Params
  lights : List (String × Light)

/-- Python truthiness of the optional target-vehicle id. -/
def truthyTarget : Option String → Bool
  | none => false
  | some s => s ≠ ""

/-- In-place mutation of the first vehicle carrying the given id (the object
found by next(t for t in self.vehicles if t.id == tid)). -/
def updateFirstById (vs : List Vehicle) (tid : String) (t' : Vehicle) : List Vehicle :=
  match vs with
  | [] => []
  | v :: rest => if v.id = tid then t' :: rest else v :: updateFirstById rest tid t'

/-- Target acquisition (lines 889-898): an attacker with no current target
scans for non-attacker moving vehicles within communication range and picks
one at random. -/
def acquireTarget (ora : Oracles) (ctx : StepCtx) (vs : List Vehicle) (v : Vehicle) :
    Vehicle :=
  if !truthyTarget v.target_vehicle then
    let nearby := vs.filter (fun t =>
      ¬t.is_attacker ∧ t.status = "moving" ∧
        vdist ora v t < ctx.params.communication_range)
    if !nearby.isEmpty then
      match nearby.get? (ora.pickIdx v.id % nearby.length) with
      | some chosen => { v with target_vehicle := some chosen.id, hack_progress := 0 }
      | none => v
    else v
  else v

/-- Hacking progress against the current target (lines 901-950): accumulate
hack progress while in extended range, with the resist check and the
hack-complete transition that stops the target; out-of-range, missing or
non-moving targets reset the attacker's targeting state.  Returns the
updated attacker, the optional mutated target (keyed by its id), and any
anomaly entries. -/
def hackTick (ora : Oracles) (ctx : StepCtx) (vs : List Vehicle) (v : Vehicle) :
    Vehicle × Option (String × Vehicle) × List Anomaly :=
  match v.target_vehicle with
  | none => (v, none, [])
  | some tid =>
    if tid = "" then (v, none, [])
    else
      match vs.find? (fun t => t.id = tid) with
      | some target =>
        if target.status = "moving" then
          if vdist ora v target < ctx.params.communication_range * (12/10) then
            let attack_mult := speedMultGet ctx.attack_sophistication
            let defense_info := defenseLevelGet target.defense_level
            let defense_mult := defense_info.hack_multiplier
            let hack_speed := (3/2) * attack_mult / max defense_mult (1/10)
            let v := { v with hack_progress := v.hack_progress + hack_speed }
            let resist_chance := defense_info.resist_chance
            if v.hack_progress > 70 ∧ resist_chance > 0 ∧
                ora.resistRoll v.id < resist_chance * (5/100) then
              let v := { v with target_vehicle := none, hack_progress := 0 }
              let target := { target with anomalies_detected := target.anomalies_detected + 1 }
              (v, some (tid, target),
                [{ id := "a_" ++ toString ctx.step_count ++ "_" ++ target.id
                   timestamp := ora.now, sender := v.id, atype := ctx.active_attack
                   reason := "attack_resisted", severity := "medium" }])
            else if v.hack_progress ≥ 100 then
              let target := { target with
                status := "stopped", speed := 0
                hack_recovery_timer := 50
                anomalies_detected := target.anomalies_detected + 1 }
              let v := { v with target_vehicle := none, hack_progress := 0 }
              (v, some (tid, target),
                [{ id := "a_" ++ toString ctx.step_count ++ "_" ++ target.id
                   timestamp := ora.now, sender := v.id, atype := ctx.active_attack
                   reason := "vehicle_hacked", severity := "high" }])
            else (v, none, [])
          else ({ v with target_vehicle := none, hack_progress := 0 }, none, [])
        else ({ v with target_vehicle := none, hack_progress := 0 }, none, [])
      | none => ({ v with target_vehicle := none, hack_progress := 0 }, none, [])

/-- Attacker targeting and hacking (lines 887-953): acquisition then the
hack tick for attackers while an attack type is active; everyone else falls
to the line 951-953 else branch that clears targeting state.  (The engine
never makes a vehicle its own hack target: candidates are non-attackers.) -/
def hackerLogic (ora : Oracles) (ctx : StepCtx) (vs : List Vehicle) (v : Vehicle) :
    Vehicle × Option (String × Vehicle) × List Anomaly :=
  if v.is_attacker ∧ truthyOpt ctx.active_attack then
    hackTick ora ctx vs (acquireTarget ora ctx vs v)
  else ({ v with target_vehicle := none, hack_progress := 0 }, none, [])

/-- The recovery block at lines 955-962, transcribed as written: it fires
only for a vehicle whose status is "stopped" at this point of the loop body
(which the line 883 continue makes unreachable, see the C6 analysis). -/
def recoveryBlock (v : Vehicle) : Vehicle :=
  if v.status = "stopped" ∧ ¬v.is_attacker then
    let recovery := v.hack_recovery_timer
    if recovery > 0 then
      let v := { v with hack_recovery_timer := recovery - 1 }
      if v.hack_recovery_timer ≤ 0 then { v with status := "moving", hack_recovery_timer := 0 }
      else v
    else v
  else v

/-- _detect_anomaly (lines 1122-1139); the reason strings are presentation,
rendered here as stable tags. -/
def _detect_anomaly (now : ℚ) (sensitivity : ℚ) (msg : BSM) : Bool × Option String :=
  let speed_threshold := 200 - sensitivity * 80
  let r1 : Bool × Option String :=
    if msg.speed > speed_threshold then (true, some "impossible_speed") else (false, none)
  let time_threshold := 10 - sensitivity * 6
  if msg.timestamp < now - time_threshold then (true, some "replayed_message") else r1

/-- Beacon generation and anomaly check (lines 969-993) for one vehicle.
Python evaluates int(10 / message_frequency) afresh for every vehicle; a
zero message_frequency raises ZeroDivisionError at the division, and a
frequency above 10 truncates the period to 0 and raises at the modulo. -/
def beaconStep (ora : Oracles) (ctx : StepCtx) (v : Vehicle) :
    Except String (Vehicle × Option BSM × List Anomaly) :=
  if ctx.params.message_frequency = 0 then Except.error "ZeroDivisionError"
  else
    let period := truncQ (10 / ctx.params.message_frequency)
    if period = 0 then Except.error "ZeroDivisionError"
    else if Int.fmod (ctx.step_count : Int) period = 0 then
      let msg : BSM :=
        { id := "msg_" ++ toString ctx.step_count ++ "_" ++ v.id
          sender_id := v.id, timestamp := ora.now
          lat := v.lat, lon := v.lon, speed := v.speed, heading := v.heading }
      let v := { v with messages_sent := v.messages_sent + 1 }
      let da := _detect_anomaly ora.now ctx.params.detection_sensitivity msg
      if da.1 then
        let v := { v with anomalies_detected := v.anomalies_detected + 1 }
        Except.ok (v, some msg,
          [{ id := "a_" ++ toString ctx.step_count ++ "_" ++ v.id
             timestamp := ora.now, sender := v.id
             atype := if v.is_attacker then ctx.active_attack else some "unknown"
             reason := (da.2).getD "", severity := if v.is_attacker then "high" else "medium" }])
      else Except.ok (v, some msg, [])
    else Except.ok (v, none, [])

/-- Writing one loop iteration's results back into the vehicle list: the
iterated vehicle is written at its index, and the attacker's mutated hack
target (when there is one) is written through its id. -/
def writeBack (vs : List Vehicle) (i : Nat) (hl2 : Option (String × Vehicle))
    (v1 : Vehicle) : List Vehicle :=
  let vs := vs.set i v1
  match hl2 with
  | some (tid, t') => updateFirstById vs tid t'
  | none => vs

/-- One iteration of the vehicle loop (lines 882-993) at index i: the
line 883 continue skips vehicles already stopped; otherwise hacker logic,
the (dead) recovery block, movement for moving vehicles, then beacon
generation run in order, and the results are written back into the list. -/
def stepOneVehicle (ora : Oracles) (geo : Geo) (ctx : StepCtx) (vs : List Vehicle)
    (i : Nat) : Except String (List Vehicle × Option BSM × List Anomaly) :=
  match vs.get? i with
  | none => Except.ok (vs, none, [])
  | some v =>
    if v.status = "stopped" then Except.ok (vs, none, [])
    else
      let hl := hackerLogic ora ctx vs v
      let v := hl.1
      let v := recoveryBlock v
      let v := if v.status = "moving" then _move_vehicle ora geo ctx.lights ctx.params v else v
      match beaconStep ora ctx v with
      | Except.error e => Except.error e
      | Except.ok (v, msg?, anoms2) =>
        Except.ok (writeBack vs i hl.2.1 v, msg?, hl.2.2 ++ anoms2)

/-- The vehicle loop, iterating the indices of the original list (fuel is
the number of remaining iterations). -/
def stepVehiclesLoop (ora : Oracles) (geo : Geo) (ctx : StepCtx) :
    Nat → Nat → List Vehicle → List BSM → List Anomaly →
    Except String (List Vehicle × List BSM × List Anomaly)
  | 0, _, vs, msgs, anoms => Except.ok (vs, msgs, anoms)
  | fuel + 1, i, vs, msgs, anoms =>
    match stepOneVehicle ora geo ctx vs i with
    | Except.error e => Except.error e
    | Except.ok (vs', msg?, newAnoms) =>
      stepVehiclesLoop ora geo ctx fuel (i + 1) vs' (msgs ++ msg?.toList) (anoms ++ newAnoms)

/-- One pairing check of the V2V proximity scan (lines 998-1007): when the
pair is within communication range, record the link event and increment
both receive counters. -/
def v2vStep (ora : Oracles) (range : ℚ) (acc : Vehicle × List Vehicle × List V2V)
    (v2 : Vehicle) : Vehicle × List Vehicle × List V2V :=
  let d := vdist ora acc.1 v2
  if d < range then
    ({ acc.1 with messages_received := acc.1.messages_received + 1 },
     acc.2.1 ++ [{ v2 with messages_received := v2.messages_received + 1 }],
     acc.2.2 ++ [{ from_id := acc.1.id, to_id := v2.id, distance := d }])
  else (acc.1, acc.2.1 ++ [v2], acc.2.2)

/-- Inner sweep of the V2V proximity scan (lines 996-1007): vehicle v1
against every later vehicle. -/
def v2vInner (ora : Oracles) (range : ℚ) (v1 : Vehicle) (rest : List Vehicle) :
    Vehicle × List Vehicle × List V2V :=
  rest.foldl (v2vStep ora range) (v1, [], [])

/-- The O(n^2) pairwise V2V scan (fuel is the list length; v2vInner
preserves length, so the fuel never runs out on the recursive calls). -/
def v2vScanAux (ora : Oracles) (range : ℚ) : Nat → List Vehicle → List Vehicle × List V2V
  | _, [] => ([], [])
  | 0, vs => (vs, [])
  | fuel + 1, v1 :: rest =>
    let inner := v2vInner ora range v1 rest
    let tail := v2vScanAux ora range fuel inner.2.1
    (inner.1 :: tail.1, inner.2.2 ++ tail.2)

def v2vScan (ora : Oracles) (range : ℚ) (vs : List Vehicle) : List Vehicle × List V2V :=
  v2vScanAux ora range vs.length vs

/-- Traffic light advance (lines 860-864). -/
def advanceLights (lights : List (String × Light)) : List (String × Light) :=
  lights.map (fun p =>
    let t := p.2.timer + 1
    if t > 100 then (p.1, { state := if p.2.state = "red" then "green" else "red", timer := 0 })
    else (p.1, { p.2 with timer := t }))

/-- Re-initiation of an attack from one attacker after a resolution
(lines 874-879): initiate and, when an id came back, store the fresh
scheduling draws. -/
def retriggerOne (ora : Oracles) (attack_id t : String) (s : SimState)
    (attacker : Vehicle) : SimState :=
  let r := initiate_attack ora s t attacker.id s.attack_sophistication
    (ora.freshAtk attack_id)
  match r.1 with
  | none => r.2
  | some newId =>
    let sched := setResolution r.2.active_attacks newId
      (r.2.step_count + ora.stepDelay newId) (ora.repeatI newId)
    { r.2 with active_attacks := sched }

/-- Processing of one snapshot key of the active-attack dict
(lines 868-879): resolve it when its scheduled resolution step has arrived,
then, while an attack type is still selected, immediately re-initiate from
the first attacker vehicle. -/
def processOneDue (ora : Oracles) (s : SimState) (attack_id : String) : SimState :=
  match lookupAssoc s.active_attacks attack_id with
  | none => s
  | some attack_state =>
    match attack_state.resolution_step with
    | none => s
    | some rs =>
      if s.step_count ≥ rs then
        let s := resolve_attack ora s attack_id
        if truthyOpt s.active_attack then
          match s.active_attack with
          | none => s
          | some t =>
            ((s.vehicles.filter (fun v => v.is_attacker)).take 1).foldl
              (retriggerOne ora attack_id t) s
        else s
      else s

/-- Processing of due active attacks (lines 867-879), iterating a snapshot
of the current keys. -/
def processDueAttacks (ora : Oracles) (s : SimState) : SimState :=
  (s.active_attacks.map (fun p => p.1)).foldl (processOneDue ora) s

/-- The step() return value: the updated world together with the beacons
emitted this tick (the full snapshot dict additionally copies state and
catalog data verbatim, see get_current_state). -/
structure StepResult where
  state : SimState
  messages : List BSM

/-- Lines 854-864 of step(): the tick increment, the per-tick reset of the
V2V link list, and the traffic-light advance, applied before attack
processing and the vehicle loop. -/
def preTick (s : SimState) : SimState :=
  { s with step_count := s.step_count + 1, v2v_messages := []
           traffic_lights := advanceLights s.traffic_lights }

/-- step() (lines 853-1047): increment the tick, advance lights, process due
attacks, run the vehicle loop, run the V2V scan, keep the last 10 anomalies.
The Except models the ZeroDivisionError that the beacon period computation
raises for message_frequency = 0 or greater than 10. -/
def step (ora : Oracles) (geo : Geo) (s : SimState) : Except String StepResult :=
  let s := processDueAttacks ora (preTick s)
  let ctx : StepCtx :=
    { step_count := s.step_count, active_attack := s.active_attack
      attack_sophistication := s.attack_sophistication
      params := s.params, lights := s.traffic_lights }
  match stepVehiclesLoop ora geo ctx s.vehicles.length 0 s.vehicles [] [] with
  | Except.error e => Except.error e
  | Except.ok (vs, msgs, newAnoms) =>
    let scan := v2vScan ora s.params.communication_range vs
    let anoms := newAnoms.drop (newAnoms.length - 10)
    Except.ok
      { state := { s with vehicles := scan.1, v2v_messages := scan.2
                          anomaly_detections := anoms }
        messages := msgs }

/-! ## Shared concrete fixtures for witnesses and counterexamples -/

/-- Deterministic oracle bundle used to evaluate the model on concrete
inputs. -/
def oraZero : Oracles :=
  { rolls := fun _ => 0, jitter := fun _ => 0
    freshDef := fun k => k, freshOut := fun k => k, freshAtk := fun k => k
    now := 0, initDelay := fun _ => 30, stepDelay := fun _ => 40
    repeatI := fun _ => 40, pickIdx := fun _ => 0, resistRoll := fun _ => 0
    pickDest := fun _ => "a", sqrtQ := fun _ => 0, atan2deg360 := fun _ _ => 0 }

/-- Trivial road service for concrete runs. -/
def geoZero : Geo := { nodePos := fun _ => (0, 0), getPath := fun _ _ => [] }

/-- A plain passenger vehicle with the initial field values of
_generate_initial_vehicles. -/
def baseVeh : Vehicle :=
  { id := "v_0", vtype := "passenger", lat := 0, lon := 0, speed := 0, heading := 0
    is_attacker := false, max_speed := 60, defense_level := "medium"
    messages_sent := 0, messages_received := 0, anomalies_detected := 0
    current_node := "a", target_node := "b", destination := "c"
    path := ["a", "b", "c"], status := "moving", progress := 0, hack_progress := 0
    target_vehicle := none, waiting_at_light := false, hack_recovery_timer := 0 }

/-- A uniform defense configuration: everything enabled at strength 80. -/
def cfgDefault : String → DefenseSetting := fun _ => { enabled := true, strength := 80 }

/-- An empty world carrying the default parameter values of __init__. -/
def baseState : SimState :=
  { is_running := true, step_count := 0, active_attack := none
    attack_sophistication := "medium"
    defense_config := cfgDefault
    vehicles := [], traffic_lights := [], attack_logs := [], defense_logs := []
    outcome_logs := [], active_attacks := []
    params := { global_speed_multiplier := 1/2, message_frequency := 1
                detection_sensitivity := 7/10, communication_range := 1/200 }
    v2v_messages := [], anomaly_detections := [] }

/-- A concrete attack log used by several concrete worlds. -/
def sampleLog : AttackLog :=
  { id := "atk_1", timestamp := 0, attack_type := "message_replay"
    attacker_id := "v_0", target_ids := ["v_1"], sophistication := "medium"
    status := "initiated", bypass_chance := 3/10 }

/-- The matching active-attack entry. -/
def c4Active : ActiveAttackState :=
  { attack_log := sampleLog, resolution_step := some 30, repeat_interval := some 40 }

/-- World for the C3 witness: one vehicle mid-hack and one active attack. -/
def c3State : SimState :=
  { baseState with
    active_attack := some "message_replay"
    vehicles := [{ baseVeh with target_vehicle := some "v_1", hack_progress := 42 }]
    attack_logs := [sampleLog]
    active_attacks := [("atk_1", c4Active)] }

/-- World for the C4 witness: one active attack awaiting resolution. -/
def c4State : SimState :=
  { baseState with
    vehicles := [{ baseVeh with id := "v_1" }]
    attack_logs := [sampleLog]
    active_attacks := [("atk_1", c4Active)] }

/-- The first DefenseLog of a concrete process_defenses run (used by the C2
witness). -/
def c2Log : DefenseLog :=
  (process_defenses oraZero cfgDefault [] sampleLog).1.headI

/-- World for the C10 witness: a single attacker vehicle and no attacks. -/
def c10State : SimState :=
  { baseState with
    vehicles := [{ baseVeh with is_attacker := true, vtype := "hacker", defense_level := "high" }] }

/-! ## Helper lemmas -/

lemma resolve_attack_noop (ora : Oracles) (s : SimState) (id : String)
    (h : lookupAssoc s.active_attacks id = none) : resolve_attack ora s id = s := by
  simp [resolve_attack, h]

lemma lookupAssoc_eraseAssoc_self {α : Type} (l : List (String × α)) (k : String) :
    lookupAssoc (eraseAssoc l k) k = none := by
  induction l with
  | nil => rfl
  | cons p rest ih =>
    by_cases h : p.1 = k
    · simpa [eraseAssoc, List.filter, h] using ih
    · simpa [eraseAssoc, List.filter, h, lookupAssoc] using ih

lemma setLogStatus_cancel_hits (logs : List AttackLog) (k : String) :
    ∀ l ∈ setLogStatus logs k "cancelled", l.id = k → l.status = "cancelled" := by
  intro l hl hid
  simp only [setLogStatus, List.mem_map] at hl
  obtain ⟨l0, _, rfl⟩ := hl
  by_cases h : l0.id = k <;> simp_all

lemma setLogStatus_cancel_keeps (logs : List AttackLog) (k k' : String)
    (h : ∀ l ∈ logs, l.id = k → l.status = "cancelled") :
    ∀ l ∈ setLogStatus logs k' "cancelled", l.id = k → l.status = "cancelled" := by
  intro l hl hid
  simp only [setLogStatus, List.mem_map] at hl
  obtain ⟨l0, hl0, rfl⟩ := hl
  by_cases h' : l0.id = k' <;> simp_all

lemma cancelFold_keeps (ps : List (String × ActiveAttackState)) (k : String) :
    ∀ logs, (∀ l ∈ logs, l.id = k → l.status = "cancelled") →
      ∀ l ∈ ps.foldl (fun logs p => setLogStatus logs p.2.attack_log.id "cancelled") logs,
        l.id = k → l.status = "cancelled" := by
  induction ps with
  | nil => intro logs h; simpa using h
  | cons p rest ih =>
    intro logs h
    exact ih (setLogStatus logs p.2.attack_log.id "cancelled")
      (setLogStatus_cancel_keeps logs k p.2.attack_log.id h)

lemma cancelFold_cancels (ps : List (String × ActiveAttackState)) :
    ∀ logs, ∀ p ∈ ps,
      ∀ l ∈ ps.foldl (fun logs q => setLogStatus logs q.2.attack_log.id "cancelled") logs,
        l.id = p.2.attack_log.id → l.status = "cancelled" := by
  induction ps with
  | nil => intro logs p hp; simp at hp
  | cons q rest ih =>
    intro logs p hp l hl hid
    rcases List.mem_cons.mp hp with h | h
    · subst h
      exact cancelFold_keeps rest p.2.attack_log.id
        (setLogStatus logs p.2.attack_log.id "cancelled")
        (setLogStatus_cancel_hits logs p.2.attack_log.id) l hl hid
    · exact ih (setLogStatus logs q.2.attack_log.id "cancelled") p h l hl hid

/-! ## Claims C3, C4, C10 -/

/-- C3: calling set_attack with an empty/none attack type clears
target_vehicle and hack_progress on every vehicle, marks every currently
active attack's log with the terminal status "cancelled", empties the
active-attack set, and produces no DefenseLog and no AttackOutcome (defense
evaluation is bypassed). -/
theorem c3_cancel_clears_and_cancels (ora : Oracles) (s : SimState)
    (t : Option String) (soph : String) (h : truthyOpt t = false) :
    (∀ v ∈ (set_attack ora s t soph).vehicles, v.target_vehicle = none ∧ v.hack_progress = 0) ∧
    (set_attack ora s t soph).active_attacks = [] ∧
    (∀ p ∈ s.active_attacks, ∀ l ∈ (set_attack ora s t soph).attack_logs,
      l.id = p.2.attack_log.id → l.status = "cancelled") ∧
    (set_attack ora s t soph).defense_logs = s.defense_logs ∧
    (set_attack ora s t soph).outcome_logs = s.outcome_logs := by
  refine ⟨?_, ?_, ?_, ?_, ?_⟩
  · intro v hv
    simp only [set_attack, h, Bool.not_false, if_true, List.mem_map] at hv
    obtain ⟨v0, _, rfl⟩ := hv
    exact ⟨rfl, rfl⟩
  · simp [set_attack, h]
  · intro p hp l hl hid
    simp only [set_attack, h, Bool.not_false, if_true] at hl
    exact cancelFold_cancels s.active_attacks s.attack_logs p hp l hl hid
  · simp [set_attack, h]
  · simp [set_attack, h]

/-- C3 witness: a concrete world with one targeting vehicle and one active
attack, cancelled by set_attack(None). -/
theorem c3_witness :
    (∀ v ∈ (set_attack oraZero c3State none "medium").vehicles,
      v.target_vehicle = none ∧ v.hack_progress = 0) ∧
    (set_attack oraZero c3State none "medium").active_attacks = [] ∧
    (∀ p ∈ c3State.active_attacks,
      ∀ l ∈ (set_attack oraZero c3State none "medium").attack_logs,
        l.id = p.2.attack_log.id → l.status = "cancelled") ∧
    (set_attack oraZero c3State none "medium").defense_logs = c3State.defense_logs ∧
    (set_attack oraZero c3State none "medium").outcome_logs = c3State.outcome_logs :=
  c3_cancel_clears_and_cancels oraZero c3State none "medium" rfl

/-- C4: attack resolution is idempotent per id.  An absent/unknown id is a
silent no-op; an active id gets exactly one terminal status written into its
attack log ("blocked" or "succeeded"), exactly one appended AttackOutcome,
and its ActiveAttackState deleted in the same call, after which a second
resolve of the same id (under any randomness) changes nothing. -/
theorem c4_resolve_idempotent (ora ora2 : Oracles) (s : SimState) (id : String) :
    (lookupAssoc s.active_attacks id = none → resolve_attack ora s id = s) ∧
    (∀ st, lookupAssoc s.active_attacks id = some st →
      (resolve_attack ora s id).outcome_logs.length = s.outcome_logs.length + 1 ∧
      (∃ stt, (stt = "blocked" ∨ stt = "succeeded") ∧
        (resolve_attack ora s id).attack_logs =
          setLogStatus s.attack_logs st.attack_log.id stt) ∧
      lookupAssoc (resolve_attack ora s id).active_attacks id = none ∧
      resolve_attack ora2 (resolve_attack ora s id) id = resolve_attack ora s id) := by
  constructor
  · intro h
    exact resolve_attack_noop ora s id h
  · intro st h
    have herase : lookupAssoc (resolve_attack ora s id).active_attacks id = none := by
      simp only [resolve_attack, h]
      exact lookupAssoc_eraseAssoc_self s.active_attacks id
    refine ⟨?_, ?_, herase, resolve_attack_noop ora2 _ id herase⟩
    · simp [resolve_attack, h]
    · refine ⟨if (process_defenses ora s.defense_config s.vehicles st.attack_log).2
        then "blocked" else "succeeded", ?_, ?_⟩
      · by_cases hb : (process_defenses ora s.defense_config s.vehicles st.attack_log).2 <;>
          simp [hb]
      · simp [resolve_attack, h]

/-- C4 witness: a concrete active attack, resolved once. -/
theorem c4_witness :
    (resolve_attack oraZero c4State "atk_1").outcome_logs.length =
      c4State.outcome_logs.length + 1 ∧
    (∃ stt, (stt = "blocked" ∨ stt = "succeeded") ∧
      (resolve_attack oraZero c4State "atk_1").attack_logs =
        setLogStatus c4State.attack_logs c4Active.attack_log.id stt) ∧
    lookupAssoc (resolve_attack oraZero c4State "atk_1").active_attacks "atk_1" = none ∧
    resolve_attack oraZero (resolve_attack oraZero c4State "atk_1") "atk_1" =
      resolve_attack oraZero c4State "atk_1" :=
  (c4_resolve_idempotent oraZero oraZero c4State "atk_1").2 c4Active rfl

/-- The per-defense firing condition of the loop at lines 691-717: the
defense is applicable to the attack type, currently enabled, and its success
roll passes. -/
def pdFires (ora : Oracles) (cfg : String → DefenseSetting) (vehicles : List Vehicle)
    (log : AttackLog) (p : String × DefenseInfo) : Bool :=
  decide (log.attack_type ∈ p.2.applicable_to) && (cfg p.1).enabled &&
    defenseRollSucceeds ora cfg vehicles log p

lemma pd_fold_succ (ora : Oracles) (cfg : String → DefenseSetting)
    (vehicles : List Vehicle) (log : AttackLog) :
    ∀ (l : List (String × DefenseInfo)) (acc : List DefenseLog × List String),
      ((l.foldl (pdStep ora cfg vehicles log) acc).2 ≠ [] ↔
        acc.2 ≠ [] ∨ l.any (pdFires ora cfg vehicles log) = true) := by
  intro l
  induction l with
  | nil => intro acc; simp
  | cons p rest ih =>
    intro acc
    simp only [List.foldl_cons, List.any_cons, Bool.or_eq_true]
    rw [ih]
    by_cases h1 : log.attack_type ∈ p.2.applicable_to
    · by_cases h2 : (cfg p.1).enabled
      · by_cases h3 : defenseRollSucceeds ora cfg vehicles log p = true
        · simp [pdStep, pdFires, h1, h2, h3]
        · simp [pdStep, pdFires, h1, h2, h3]
      · simp [pdStep, pdFires, h1, h2]
    · simp [pdStep, pdFires, h1]

lemma pd_blocked_iff (ora : Oracles) (cfg : String → DefenseSetting)
    (vehicles : List Vehicle) (log : AttackLog) :
    (process_defenses ora cfg vehicles log).2 = true ↔
      ∃ p ∈ DEFENSE_TYPES, pdFires ora cfg vehicles log p = true := by
  have h := pd_fold_succ ora cfg vehicles log DEFENSE_TYPES ([], [])
  simp only [process_defenses, decide_eq_true_iff, gt_iff_lt, List.length_pos]
  rw [h]
  simp [List.any_eq_true]

lemma pd_fold_logs (ora : Oracles) (cfg : String → DefenseSetting)
    (vehicles : List Vehicle) (log : AttackLog) :
    ∀ (l : List (String × DefenseInfo)) (acc : List DefenseLog × List String)
      (dlog : DefenseLog), dlog ∈ (l.foldl (pdStep ora cfg vehicles log) acc).1 →
      dlog ∈ acc.1 ∨ ∃ p ∈ l, dlog = mkDefenseLog ora cfg vehicles log p := by
  intro l
  induction l with
  | nil => intro acc dlog h; exact Or.inl h
  | cons p rest ih =>
    intro acc dlog h
    rcases ih (pdStep ora cfg vehicles log acc p) dlog h with h2 | h2
    · simp only [pdStep] at h2
      by_cases hc1 : log.attack_type ∉ p.2.applicable_to
      · rw [if_pos hc1] at h2
        exact Or.inl h2
      · rw [if_neg hc1] at h2
        by_cases hc2 : (!(cfg p.1).enabled) = true
        · rw [if_pos hc2] at h2
          exact Or.inl h2
        · rw [if_neg hc2] at h2
          simp only [List.mem_append, List.mem_singleton] at h2
          rcases h2 with h2 | h2
          · exact Or.inl h2
          · exact Or.inr ⟨p, List.mem_cons_self p rest, h2⟩
    · rcases h2 with ⟨q, hq, hd⟩
      exact Or.inr ⟨q, List.mem_cons_of_mem p hq, hd⟩

/-- The seven defense catalog keys are distinct, so list membership and dict
lookup agree. -/
lemma defense_types_lookup :
    ∀ p ∈ DEFENSE_TYPES, lookupAssoc DEFENSE_TYPES p.1 = some p.2 := by
  intro p hp
  fin_cases hp <;> rfl

/-- C1: the resolved outcome is "blocked" exactly when at least one defense
that is applicable to the attack type and enabled has a successful roll;
with no applicable enabled successful defense (including all-disabled and
none-applicable) the outcome is "full_success".  Defense composition is OR. -/
theorem c1_blocked_iff_or_composition (ora : Oracles) (s : SimState) (id : String)
    (st : ActiveAttackState) (h : lookupAssoc s.active_attacks id = some st) :
    ∃ out, (resolve_attack ora s id).outcome_logs = s.outcome_logs ++ [out] ∧
      (out.result = "blocked" ↔
        ∃ p ∈ DEFENSE_TYPES, st.attack_log.attack_type ∈ p.2.applicable_to ∧
          (s.defense_config p.1).enabled = true ∧
          defenseRollSucceeds ora s.defense_config s.vehicles st.attack_log p = true) ∧
      ((¬ ∃ p ∈ DEFENSE_TYPES, st.attack_log.attack_type ∈ p.2.applicable_to ∧
          (s.defense_config p.1).enabled = true ∧
          defenseRollSucceeds ora s.defense_config s.vehicles st.attack_log p = true) →
        out.result = "full_success") := by
  have hiff : (process_defenses ora s.defense_config s.vehicles st.attack_log).2 = true ↔
      ∃ p ∈ DEFENSE_TYPES, st.attack_log.attack_type ∈ p.2.applicable_to ∧
        (s.defense_config p.1).enabled = true ∧
        defenseRollSucceeds ora s.defense_config s.vehicles st.attack_log p = true := by
    rw [pd_blocked_iff]
    simp [pdFires, Bool.and_eq_true, decide_eq_true_iff, and_assoc]
  simp only [resolve_attack, h]
  refine ⟨_, rfl, ?_, ?_⟩
  · by_cases hb : (process_defenses ora s.defense_config s.vehicles st.attack_log).2 = true
    · simpa [hb] using hiff.mp hb
    · rw [if_neg hb]
      simp only [show ("full_success" = "blocked") = False by simp]
      rw [← hiff]
      simp [hb]
  · intro hne
    have : (process_defenses ora s.defense_config s.vehicles st.attack_log).2 ≠ true :=
      fun hb => hne (hiff.mp hb)
    simp [this]

/-- C1 witness: a concrete message_replay attack against the default defense
configuration with all rolls at 0 is blocked, and a successful applicable
enabled defense exists. -/
theorem c1_witness :
    ∃ out, (resolve_attack oraZero c4State "atk_1").outcome_logs =
        c4State.outcome_logs ++ [out] ∧
      (out.result = "blocked" ↔
        ∃ p ∈ DEFENSE_TYPES, c4Active.attack_log.attack_type ∈ p.2.applicable_to ∧
          (c4State.defense_config p.1).enabled = true ∧
          defenseRollSucceeds oraZero c4State.defense_config c4State.vehicles
            c4Active.attack_log p = true) ∧
      ((¬ ∃ p ∈ DEFENSE_TYPES, c4Active.attack_log.attack_type ∈ p.2.applicable_to ∧
          (c4State.defense_config p.1).enabled = true ∧
          defenseRollSucceeds oraZero c4State.defense_config c4State.vehicles
            c4Active.attack_log p = true) →
        out.result = "full_success") :=
  c1_blocked_iff_or_composition oraZero c4State "atk_1" c4Active rfl

/-- C2: every DefenseLog emitted by process_defenses has confidence equal to
the adjusted effectiveness divided by 100, where the adjusted effectiveness
is min(baseEffectiveness x (strength/100) x defenseLevelBonus, 99) with the
base effectiveness drawn from the catalog at the attack's sophistication
tier; the adjusted effectiveness is capped at 99 for every configuration
strength and defense-level bonus, so confidence never exceeds 0.99. -/
theorem c2_adjusted_effectiveness_capped (ora : Oracles) (cfg : String → DefenseSetting)
    (vehicles : List Vehicle) (log : AttackLog) (dlog : DefenseLog)
    (h : dlog ∈ (process_defenses ora cfg vehicles log).1) :
    (∃ info, lookupAssoc DEFENSE_TYPES dlog.defense_type = some info ∧
      dlog.confidence =
        min (info.effectiveness.get log.sophistication *
          ((cfg dlog.defense_type).strength / 100) *
          (defenseLevelGet (avgDefenseOf vehicles log)).defense_bonus) 99 / 100) ∧
    (∀ (cfg' : String → DefenseSetting) (vehicles' : List Vehicle) (log' : AttackLog)
      (p : String × DefenseInfo), adjustedEffectiveness cfg' vehicles' log' p ≤ 99) ∧
    dlog.confidence ≤ 99 / 100 := by
  have hcap : ∀ (cfg' : String → DefenseSetting) (vehicles' : List Vehicle)
      (log' : AttackLog) (p : String × DefenseInfo),
      adjustedEffectiveness cfg' vehicles' log' p ≤ 99 :=
    fun cfg' vehicles' log' p => min_le_right _ _
  have hm := pd_fold_logs ora cfg vehicles log DEFENSE_TYPES ([], []) dlog h
  simp only [List.not_mem_nil, false_or] at hm
  obtain ⟨p, hp, rfl⟩ := hm
  refine ⟨⟨p.2, defense_types_lookup p hp, rfl⟩, hcap, ?_⟩
  have h99 : adjustedEffectiveness cfg vehicles log p ≤ 99 := hcap cfg vehicles log p
  calc (mkDefenseLog ora cfg vehicles log p).confidence
      = adjustedEffectiveness cfg vehicles log p / 100 := rfl
    _ ≤ 99 / 100 := by
        exact (div_le_div_iff_of_pos_right (by norm_num)).mpr h99

lemma headI_mem_of_ne_nil {α : Type} [Inhabited α] :
    ∀ (l : List α), l ≠ [] → l.headI ∈ l
  | [], h => absurd rfl h
  | a :: t, _ => List.mem_cons_self a t

lemma c2Log_mem : c2Log ∈ (process_defenses oraZero cfgDefault [] sampleLog).1 := by
  apply headI_mem_of_ne_nil
  norm_num [process_defenses, DEFENSE_TYPES, pdStep, sampleLog, cfgDefault,
    defenseRollSucceeds, adjustedEffectiveness, avgDefenseOf, TierTable.get,
    defenseLevelGet, DEFENSE_LEVELS_medium, oraZero]

/-- C2 witness: the first DefenseLog of a concrete process_defenses run. -/
theorem c2_witness :
    (∃ info, lookupAssoc DEFENSE_TYPES c2Log.defense_type = some info ∧
      c2Log.confidence =
        min (info.effectiveness.get sampleLog.sophistication *
          ((cfgDefault c2Log.defense_type).strength / 100) *
          (defenseLevelGet (avgDefenseOf [] sampleLog)).defense_bonus) 99 / 100) ∧
    (∀ (cfg' : String → DefenseSetting) (vehicles' : List Vehicle) (log' : AttackLog)
      (p : String × DefenseInfo), adjustedEffectiveness cfg' vehicles' log' p ≤ 99) ∧
    c2Log.confidence ≤ 99 / 100 :=
  c2_adjusted_effectiveness_capped oraZero cfgDefault [] sampleLog c2Log c2Log_mem

/-- C10: set_attack with a non-empty type that is not in the attack catalog
still records the string as the active attack (and snapshots report it),
while initiate_attack refuses it: no AttackLog is appended, no
ActiveAttackState is created, and the active-attack count is unchanged. -/
theorem c10_unknown_type_recorded_only (ora : Oracles) (s : SimState)
    (t soph : String) (h1 : t ≠ "") (h2 : lookupAssoc ATTACK_TYPES t = none) :
    (set_attack ora s (some t) soph).active_attack = some t ∧
    (get_current_state (set_attack ora s (some t) soph)).active_attack = some t ∧
    truthyOpt (set_attack ora s (some t) soph).active_attack = true ∧
    (set_attack ora s (some t) soph).attack_logs = s.attack_logs ∧
    (set_attack ora s (some t) soph).active_attacks = s.active_attacks ∧
    (get_current_state (set_attack ora s (some t) soph)).active_attacks_count =
      s.active_attacks.length := by
  have hfold : ∀ (l : List Vehicle) (s0 : SimState),
      l.foldl (fun s1 attacker =>
        let r := initiate_attack ora s1 t attacker.id soph (ora.freshAtk "set_attack")
        match r.1 with
        | none => r.2
        | some attack_id =>
          let sched := setResolution r.2.active_attacks attack_id
            (r.2.step_count + ora.initDelay attack_id) (ora.repeatI attack_id)
          { r.2 with active_attacks := sched }) s0 = s0 := by
    intro l
    induction l with
    | nil => intro s0; rfl
    | cons a rest ih =>
      intro s0
      have : initiate_attack ora s0 t a.id soph (ora.freshAtk "set_attack") = (none, s0) := by
        simp [initiate_attack, h2]
      simpa [this] using ih s0
  have ht : truthyOpt (some t) = true := by simp [truthyOpt, h1]
  simp only [set_attack, ht, Bool.not_true, Bool.false_eq_true, if_false]
  rw [hfold]
  exact ⟨rfl, rfl, ht, rfl, rfl, rfl⟩

/-- C10 witness: the unknown attack type string "quantum_hack" on a concrete
world with one attacker vehicle. -/
theorem c10_witness :
    (set_attack oraZero c10State (some "quantum_hack") "medium").active_attack =
      some "quantum_hack" ∧
    (get_current_state (set_attack oraZero c10State (some "quantum_hack") "medium")).active_attack =
      some "quantum_hack" ∧
    truthyOpt (set_attack oraZero c10State (some "quantum_hack") "medium").active_attack = true ∧
    (set_attack oraZero c10State (some "quantum_hack") "medium").attack_logs =
      c10State.attack_logs ∧
    (set_attack oraZero c10State (some "quantum_hack") "medium").active_attacks =
      c10State.active_attacks ∧
    (get_current_state (set_attack oraZero c10State (some "quantum_hack") "medium")).active_attacks_count =
      c10State.active_attacks.length :=
  c10_unknown_type_recorded_only oraZero c10State "quantum_hack" "medium"
    (by decide) (by decide)

/-! ## Claim C7 -/

lemma arriveAtNode_progress (ora : Oracles) (geo : Geo) (v0 : Vehicle) :
    (arriveAtNode ora geo v0).progress = 0 := by
  simp only [arriveAtNode]
  split_ifs <;> rfl

lemma arriveAtNode_current_node (ora : Oracles) (geo : Geo) (v0 : Vehicle) :
    (arriveAtNode ora geo v0).current_node = v0.target_node := by
  simp only [arriveAtNode]
  split_ifs <;> rfl

lemma arriveAtNode_waiting (ora : Oracles) (geo : Geo) (v0 : Vehicle) :
    (arriveAtNode ora geo v0).waiting_at_light = v0.waiting_at_light := by
  simp only [arriveAtNode]
  split_ifs <;> rfl

lemma arriveAtNode_max_speed (ora : Oracles) (geo : Geo) (v0 : Vehicle) :
    (arriveAtNode ora geo v0).max_speed = v0.max_speed := by
  simp only [arriveAtNode]
  split_ifs <;> rfl

/-- C7: at progress above 0.8 with a red light hosted at the target node,
one tick of the motion model only sets waiting_at_light, leaving progress,
position and every other field unchanged; with a green light or no light at
the target node no stop is imposed: the waiting flag is cleared and, for a
positive movement distance, progress strictly advances or the vehicle snaps
to the target node with progress reset to 0. -/
theorem c7_red_light_stop (ora : Oracles) (geo : Geo) (lights : List (String × Light))
    (params : Params) (v : Vehicle) :
    (v.progress > 8/10 → ∀ l, lookupAssoc lights v.target_node = some l →
      l.state = "red" →
      _move_vehicle ora geo lights params v = { v with waiting_at_light := true }) ∧
    ((∀ l, lookupAssoc lights v.target_node = some l → l.state ≠ "red") →
      0 < params.global_speed_multiplier → 0 < v.max_speed →
      (_move_vehicle ora geo lights params v).waiting_at_light = false ∧
      (v.progress < (_move_vehicle ora geo lights params v).progress ∨
        ((_move_vehicle ora geo lights params v).progress = 0 ∧
          (_move_vehicle ora geo lights params v).current_node = v.target_node))) := by
  constructor
  · intro hp l hl hred
    simp [_move_vehicle, hl, hred, hp]
  · intro hgreen hgsm hms
    have hred : (match lookupAssoc lights v.target_node with
        | some light => decide (light.state = "red")
        | none => false) = false := by
      cases hl : lookupAssoc lights v.target_node with
      | none => rfl
      | some l => simpa using hgreen l hl
    have hmd : 0 < v.max_speed * (6/10) / 111 / 3600 * (1/10) *
        params.global_speed_multiplier := by
      apply mul_pos _ hgsm
      apply mul_pos _ (by norm_num)
      apply div_pos (div_pos (mul_pos hms (by norm_num)) (by norm_num)) (by norm_num)
    simp only [_move_vehicle, hred, Bool.and_false, Bool.false_eq_true, if_false]
    constructor
    · split_ifs <;> simp [arriveAtNode_waiting]
    · split_ifs with h1 h2 h3
      · exact Or.inr ⟨arriveAtNode_progress _ _ _, arriveAtNode_current_node _ _ _⟩
      · exact Or.inl (lt_add_of_pos_right v.progress (div_pos hmd h1))
      · exact Or.inr ⟨arriveAtNode_progress _ _ _, arriveAtNode_current_node _ _ _⟩
      · exact absurd (le_refl (1 : ℚ)) h3

/-- Concrete red light at node b. -/
def c7Lights : List (String × Light) := [("b", { state := "red", timer := 5 })]

/-- A vehicle close to the intersection (progress 0.9 toward node b). -/
def c7Veh : Vehicle := { baseVeh with progress := 9/10 }

/-- C7 witness: with the red light at the target node the concrete vehicle
only gets its waiting flag set; with no light at the target node it is not
stopped and its progress advances (or it snaps to the node). -/
theorem c7_witness :
    (_move_vehicle oraZero geoZero c7Lights baseState.params c7Veh =
      { c7Veh with waiting_at_light := true }) ∧
    ((_move_vehicle oraZero geoZero [] baseState.params c7Veh).waiting_at_light = false ∧
      (c7Veh.progress < (_move_vehicle oraZero geoZero [] baseState.params c7Veh).progress ∨
        ((_move_vehicle oraZero geoZero [] baseState.params c7Veh).progress = 0 ∧
          (_move_vehicle oraZero geoZero [] baseState.params c7Veh).current_node =
            c7Veh.target_node))) :=
  ⟨(c7_red_light_stop oraZero geoZero c7Lights baseState.params c7Veh).1
      (by norm_num [c7Veh, baseVeh]) { state := "red", timer := 5 } rfl rfl,
    (c7_red_light_stop oraZero geoZero [] baseState.params c7Veh).2
      (fun l h => by simp [lookupAssoc] at h)
      (by norm_num [baseState]) (by norm_num [c7Veh, baseVeh])⟩

/-! ## Claim C5: the progress interval invariant -/

/-- The motion invariant: intra-edge progress lies in the unit interval.
The nonnegative max_speed (guaranteed by the vehicle generator catalog) is
carried along because preservation of the bounds needs it. -/
def MotionInv (v : Vehicle) : Prop :=
  0 ≤ v.max_speed ∧ 0 ≤ v.progress ∧ v.progress ≤ 1

lemma move_vehicle_motionInv (ora : Oracles) (geo : Geo) (lights : List (String × Light))
    (params : Params) (v : Vehicle) (hg : 0 ≤ params.global_speed_multiplier)
    (h : MotionInv v) : MotionInv (_move_vehicle ora geo lights params v) := by
  obtain ⟨hms, h0, h1⟩ := h
  have hmd : 0 ≤ v.max_speed * (6/10) / 111 / 3600 * (1/10) *
      params.global_speed_multiplier := by
    apply mul_nonneg _ hg
    apply mul_nonneg _ (by norm_num)
    apply div_nonneg (div_nonneg (mul_nonneg hms (by norm_num)) (by norm_num)) (by norm_num)
  simp only [_move_vehicle]
  split_ifs with hstop he hp1 hp2
  · exact ⟨hms, h0, h1⟩
  · refine ⟨?_, ?_, ?_⟩
    · rw [arriveAtNode_max_speed]; exact hms
    · rw [arriveAtNode_progress]
    · rw [arriveAtNode_progress]; norm_num
  · refine ⟨hms, ?_, ?_⟩
    · exact add_nonneg h0 (div_nonneg hmd (le_of_lt he))
    · simp only [ge_iff_le, not_le] at hp1
      exact le_of_lt hp1
  · refine ⟨?_, ?_, ?_⟩
    · rw [arriveAtNode_max_speed]; exact hms
    · rw [arriveAtNode_progress]
    · rw [arriveAtNode_progress]; norm_num
  · exact absurd (le_refl (1 : ℚ)) hp2

lemma recoveryBlock_fields (v : Vehicle) :
    (recoveryBlock v).progress = v.progress ∧
    (recoveryBlock v).max_speed = v.max_speed := by
  simp only [recoveryBlock]
  split_ifs <;> simp

lemma recoveryBlock_motionInv (v : Vehicle) (h : MotionInv v) :
    MotionInv (recoveryBlock v) := by
  obtain ⟨hf1, hf2⟩ := recoveryBlock_fields v
  exact ⟨hf2 ▸ h.1, hf1 ▸ h.2.1, hf1 ▸ h.2.2⟩

lemma acquireTarget_fields (ora : Oracles) (ctx : StepCtx) (vs : List Vehicle)
    (v : Vehicle) :
    (acquireTarget ora ctx vs v).progress = v.progress ∧
    (acquireTarget ora ctx vs v).max_speed = v.max_speed ∧
    (acquireTarget ora ctx vs v).status = v.status := by
  simp only [acquireTarget]
  repeat' split
  all_goals exact ⟨rfl, rfl, rfl⟩

lemma hackTick_self_fields (ora : Oracles) (ctx : StepCtx) (vs : List Vehicle)
    (v : Vehicle) :
    (hackTick ora ctx vs v).1.progress = v.progress ∧
    (hackTick ora ctx vs v).1.max_speed = v.max_speed ∧
    (hackTick ora ctx vs v).1.status = v.status := by
  simp only [hackTick]
  repeat' split
  all_goals exact ⟨rfl, rfl, rfl⟩

lemma hackerLogic_self_fields (ora : Oracles) (ctx : StepCtx) (vs : List Vehicle)
    (v : Vehicle) :
    (hackerLogic ora ctx vs v).1.progress = v.progress ∧
    (hackerLogic ora ctx vs v).1.max_speed = v.max_speed ∧
    (hackerLogic ora ctx vs v).1.status = v.status := by
  simp only [hackerLogic]
  split
  · obtain ⟨a1, a2, a3⟩ := acquireTarget_fields ora ctx vs v
    obtain ⟨b1, b2, b3⟩ := hackTick_self_fields ora ctx vs (acquireTarget ora ctx vs v)
    exact ⟨b1.trans a1, b2.trans a2, b3.trans a3⟩
  · simp

lemma hackTick_target_fields (ora : Oracles) (ctx : StepCtx) (vs : List Vehicle)
    (v : Vehicle) :
    ∀ tid t', (hackTick ora ctx vs v).2.1 = some (tid, t') →
      ∃ t ∈ vs, t'.progress = t.progress ∧ t'.max_speed = t.max_speed := by
  intro tid t' h
  simp only [hackTick] at h
  split at h
  · exact Option.noConfusion h
  · split_ifs at h with h1
    split at h
    · rename_i target heq
      split_ifs at h with h2 h3 h4 h5
      · have hp := Option.some.inj h
        injection hp with h5 h6
        exact ⟨target, List.mem_of_find?_eq_some heq, by rw [← h6], by rw [← h6]⟩
      · have hp := Option.some.inj h
        injection hp with h6 h7
        exact ⟨target, List.mem_of_find?_eq_some heq, by rw [← h7], by rw [← h7]⟩
    · exact Option.noConfusion h

lemma hackerLogic_target_fields (ora : Oracles) (ctx : StepCtx) (vs : List Vehicle)
    (v : Vehicle) :
    ∀ tid t', (hackerLogic ora ctx vs v).2.1 = some (tid, t') →
      ∃ t ∈ vs, t'.progress = t.progress ∧ t'.max_speed = t.max_speed := by
  intro tid t' h
  simp only [hackerLogic] at h
  split at h
  · exact hackTick_target_fields ora ctx vs (acquireTarget ora ctx vs v) tid t' h
  · simp at h

lemma beaconStep_fields (ora : Oracles) (ctx : StepCtx) (v : Vehicle) :
    ∀ out, beaconStep ora ctx v = Except.ok out →
      out.1.progress = v.progress ∧ out.1.max_speed = v.max_speed := by
  intro out h
  simp only [beaconStep] at h
  split_ifs at h
  all_goals rw [← Except.ok.inj h]
  all_goals exact ⟨rfl, rfl⟩

lemma updateFirstById_mem (tid : String) (t' : Vehicle) :
    ∀ (vs : List Vehicle) (u : Vehicle), u ∈ updateFirstById vs tid t' →
      u ∈ vs ∨ u = t' := by
  intro vs
  induction vs with
  | nil => intro u h; simp [updateFirstById] at h
  | cons a rest ih =>
    intro u h
    unfold updateFirstById at h
    split_ifs at h with ha
    · rcases List.mem_cons.mp h with h | h
      · exact Or.inr h
      · exact Or.inl (List.mem_cons_of_mem a h)
    · rcases List.mem_cons.mp h with h | h
      · exact Or.inl (h ▸ List.mem_cons_self a rest)
      · rcases ih u h with h | h
        · exact Or.inl (List.mem_cons_of_mem a h)
        · exact Or.inr h

lemma motionInv_of_fields {v w : Vehicle} (hp : w.progress = v.progress)
    (hm : w.max_speed = v.max_speed) (h : MotionInv v) : MotionInv w :=
  ⟨hm ▸ h.1, hp ▸ h.2.1, hp ▸ h.2.2⟩

lemma writeBack_mem (vs : List Vehicle) (i : Nat) (hl2 : Option (String × Vehicle))
    (v1 : Vehicle) (u : Vehicle) (hu : u ∈ writeBack vs i hl2 v1) :
    u ∈ vs ∨ u = v1 ∨ ∃ tid t', hl2 = some (tid, t') ∧ u = t' := by
  cases hl2 with
  | none =>
    simp only [writeBack] at hu
    rcases List.mem_or_eq_of_mem_set hu with h | h
    · exact Or.inl h
    · exact Or.inr (Or.inl h)
  | some p =>
    simp only [writeBack] at hu
    rcases updateFirstById_mem p.1 p.2 _ u hu with h | h
    · rcases List.mem_or_eq_of_mem_set h with h2 | h2
      · exact Or.inl h2
      · exact Or.inr (Or.inl h2)
    · exact Or.inr (Or.inr ⟨p.1, p.2, rfl, h⟩)

lemma stepOneVehicle_motionInv (ora : Oracles) (geo : Geo) (ctx : StepCtx)
    (vs : List Vehicle) (i : Nat) (hg : 0 ≤ ctx.params.global_speed_multiplier)
    (hall : ∀ u ∈ vs, MotionInv u) :
    ∀ out, stepOneVehicle ora geo ctx vs i = Except.ok out →
      ∀ u ∈ out.1, MotionInv u := by
  intro out h u hu
  simp only [stepOneVehicle] at h
  split at h
  · rw [← Except.ok.inj h] at hu
    exact hall u hu
  · rename_i v hv
    have hvmem : v ∈ vs := List.get?_mem hv
    have hv1 : MotionInv (hackerLogic ora ctx vs v).1 := by
      obtain ⟨f1, f2, _⟩ := hackerLogic_self_fields ora ctx vs v
      exact motionInv_of_fields f1 f2 (hall v hvmem)
    have hv2 : MotionInv (recoveryBlock (hackerLogic ora ctx vs v).1) :=
      recoveryBlock_motionInv _ hv1
    have hv3 : MotionInv (_move_vehicle ora geo ctx.lights ctx.params
        (recoveryBlock (hackerLogic ora ctx vs v).1)) :=
      move_vehicle_motionInv ora geo ctx.lights ctx.params _ hg hv2
    split_ifs at h with hstop hmv
    · rw [← Except.ok.inj h] at hu
      exact hall u hu
    all_goals (
      split at h
      · exact Except.noConfusion h
      · rename_i v1 msgq anoms2 hbeacon
        obtain ⟨f1, f2⟩ := beaconStep_fields ora ctx _ _ hbeacon
        have hvb : MotionInv v1 := by
          first
            | exact motionInv_of_fields f1 f2 hv3
            | exact motionInv_of_fields f1 f2 hv2
        rw [← Except.ok.inj h] at hu
        rcases writeBack_mem vs i (hackerLogic ora ctx vs v).2.1 v1 u hu with
          h' | h' | ⟨tid, t2, htgt, hteq⟩
        · exact hall u h'
        · exact h' ▸ hvb
        · obtain ⟨t, htmem, g1, g2⟩ :=
            hackerLogic_target_fields ora ctx vs v tid t2 htgt
          exact hteq ▸ motionInv_of_fields g1 g2 (hall t htmem))

lemma stepVehiclesLoop_motionInv (ora : Oracles) (geo : Geo) (ctx : StepCtx)
    (hg : 0 ≤ ctx.params.global_speed_multiplier) :
    ∀ (fuel i : Nat) (vs : List Vehicle) (msgs : List BSM) (anoms : List Anomaly) out,
      (∀ u ∈ vs, MotionInv u) →
      stepVehiclesLoop ora geo ctx fuel i vs msgs anoms = Except.ok out →
      ∀ u ∈ out.1, MotionInv u := by
  intro fuel
  induction fuel with
  | zero =>
    intro i vs msgs anoms out hall h u hu
    simp only [stepVehiclesLoop] at h
    rw [← Except.ok.inj h] at hu
    exact hall u hu
  | succ n ih =>
    intro i vs msgs anoms out hall h
    simp only [stepVehiclesLoop] at h
    split at h
    · exact Except.noConfusion h
    · rename_i vs2 msgq anoms2 hr
      exact ih (i + 1) vs2 _ _ out
        (stepOneVehicle_motionInv ora geo ctx vs i hg hall (vs2, msgq, anoms2) hr) h

lemma v2vFold_motionInv (ora : Oracles) (range : ℚ) :
    ∀ (rest : List Vehicle) (acc : Vehicle × List Vehicle × List V2V),
      MotionInv acc.1 → (∀ u ∈ acc.2.1, MotionInv u) → (∀ u ∈ rest, MotionInv u) →
      MotionInv (rest.foldl (v2vStep ora range) acc).1 ∧
        ∀ u ∈ (rest.foldl (v2vStep ora range) acc).2.1, MotionInv u := by
  intro rest
  induction rest with
  | nil => intro acc h1 h2 h3; exact ⟨h1, h2⟩
  | cons a t ih =>
    intro acc h1 h2 h3
    refine ih (v2vStep ora range acc a) ?_ ?_ (fun u hu => h3 u (List.mem_cons_of_mem a hu))
    · simp only [v2vStep]
      split_ifs
      · exact motionInv_of_fields rfl rfl h1
      · exact h1
    · intro u hu
      have ha : MotionInv a := h3 a (List.mem_cons_self a t)
      simp only [v2vStep] at hu
      split_ifs at hu <;>
        ( rcases List.mem_append.mp hu with h' | h'
          · exact h2 u h'
          · rw [List.mem_singleton.mp h']
            exact motionInv_of_fields rfl rfl ha )

lemma v2vScanAux_motionInv (ora : Oracles) (range : ℚ) :
    ∀ (fuel : Nat) (vs : List Vehicle), (∀ u ∈ vs, MotionInv u) →
      ∀ u ∈ (v2vScanAux ora range fuel vs).1, MotionInv u := by
  intro fuel
  induction fuel with
  | zero =>
    intro vs h u hu
    cases vs with
    | nil => simp [v2vScanAux] at hu
    | cons a t => exact h u (by simpa [v2vScanAux] using hu)
  | succ n ih =>
    intro vs h u hu
    cases vs with
    | nil => simp [v2vScanAux] at hu
    | cons v1 rest =>
      simp only [v2vScanAux] at hu
      have hfold := v2vFold_motionInv ora range rest (v1, [], [])
        (h v1 (List.mem_cons_self v1 rest)) (by intro u hu; simp at hu)
        (fun u hu => h u (List.mem_cons_of_mem v1 hu))
      rcases List.mem_cons.mp hu with h' | h'
      · exact h' ▸ hfold.1
      · exact ih _ hfold.2 u h'

/-- The state fields step() consults that the attack-processing phase never
writes. -/
def PreservesCore (s t : SimState) : Prop :=
  t.vehicles = s.vehicles ∧ t.params = s.params ∧ t.step_count = s.step_count ∧
  t.active_attack = s.active_attack ∧ t.traffic_lights = s.traffic_lights ∧
  t.attack_sophistication = s.attack_sophistication

lemma preservesCore_refl (s : SimState) : PreservesCore s s :=
  ⟨rfl, rfl, rfl, rfl, rfl, rfl⟩

lemma preservesCore_trans {s t u : SimState} (h1 : PreservesCore s t)
    (h2 : PreservesCore t u) : PreservesCore s u :=
  ⟨h2.1.trans h1.1, h2.2.1.trans h1.2.1, h2.2.2.1.trans h1.2.2.1,
   h2.2.2.2.1.trans h1.2.2.2.1, h2.2.2.2.2.1.trans h1.2.2.2.2.1,
   h2.2.2.2.2.2.trans h1.2.2.2.2.2⟩

lemma resolve_attack_core (ora : Oracles) (s : SimState) (id : String) :
    PreservesCore s (resolve_attack ora s id) := by
  simp only [resolve_attack]
  split <;> exact ⟨rfl, rfl, rfl, rfl, rfl, rfl⟩

lemma initiate_attack_core (ora : Oracles) (s : SimState)
    (attack_type attacker_id soph newId : String) :
    PreservesCore s (initiate_attack ora s attack_type attacker_id soph newId).2 := by
  simp only [initiate_attack]
  repeat' split
  all_goals exact ⟨rfl, rfl, rfl, rfl, rfl, rfl⟩

lemma retriggerOne_core (ora : Oracles) (attack_id t : String) (s : SimState)
    (attacker : Vehicle) : PreservesCore s (retriggerOne ora attack_id t s attacker) := by
  simp only [retriggerOne]
  refine preservesCore_trans (initiate_attack_core ora s t attacker.id
    s.attack_sophistication (ora.freshAtk attack_id)) ?_
  split
  · exact preservesCore_refl _
  · exact ⟨rfl, rfl, rfl, rfl, rfl, rfl⟩

lemma retrigger_fold_core (ora : Oracles) (attack_id t : String) :
    ∀ (l : List Vehicle) (s0 : SimState),
      PreservesCore s0 (l.foldl (retriggerOne ora attack_id t) s0) := by
  intro l
  induction l with
  | nil => intro s0; exact preservesCore_refl s0
  | cons a rest ih =>
    intro s0
    exact preservesCore_trans (retriggerOne_core ora attack_id t s0 a) (ih _)

lemma processOneDue_core (ora : Oracles) (s : SimState) (attack_id : String) :
    PreservesCore s (processOneDue ora s attack_id) := by
  simp only [processOneDue]
  split
  · exact preservesCore_refl s
  · split
    · exact preservesCore_refl s
    · split_ifs with hdue hact
      · split
        · exact preservesCore_trans (resolve_attack_core ora s attack_id)
            (preservesCore_refl _)
        · exact preservesCore_trans (resolve_attack_core ora s attack_id)
            (retrigger_fold_core ora attack_id _ _ _)
      · exact preservesCore_trans (resolve_attack_core ora s attack_id)
          (preservesCore_refl _)
      · exact preservesCore_refl s

lemma processDueAttacks_core (ora : Oracles) (s : SimState) :
    PreservesCore s (processDueAttacks ora s) := by
  simp only [processDueAttacks]
  generalize (s.active_attacks.map (fun p => p.1)) = keys
  induction keys generalizing s with
  | nil => exact preservesCore_refl s
  | cons k rest ih =>
    simp only [List.foldl_cons]
    exact preservesCore_trans (processOneDue_core ora s k) (ih _)

/-- C5 (amended): for every step() from a state whose global speed
multiplier is nonnegative (excluding the negative multipliers that the
unvalidated update_params can introduce) and whose vehicles have
nonnegative max speeds and in-range progress, every vehicle's progress
after the step lies within [0,1]: advancing motion accumulates progress
below 1.0 or snaps to the target node resetting it to 0.0 (a zero edge
distance forces progress to 1.0 and hence an immediate snap). -/
theorem c5_progress_invariant (ora : Oracles) (geo : Geo) (s : SimState)
    (hg : 0 ≤ s.params.global_speed_multiplier)
    (hall : ∀ v ∈ s.vehicles, MotionInv v) :
    ∀ r, step ora geo s = Except.ok r →
      ∀ v ∈ r.state.vehicles, 0 ≤ v.progress ∧ v.progress ≤ 1 := by
  intro r h v hv
  simp only [step] at h
  set s1 : SimState := preTick s with hs1
  set s2 : SimState := processDueAttacks ora s1 with hs2
  have hcore : PreservesCore s1 s2 := processDueAttacks_core ora s1
  split at h
  · exact Except.noConfusion h
  · rename_i vs2 msgs2 anoms2 hloop
    have hallv : ∀ u ∈ s2.vehicles, MotionInv u := by
      rw [hcore.1]
      exact hall
    have hgp : (0 : ℚ) ≤ s2.params.global_speed_multiplier := by
      rw [hcore.2.1]
      exact hg
    have hloopInv := stepVehiclesLoop_motionInv ora geo
      { step_count := s2.step_count, active_attack := s2.active_attack
        attack_sophistication := s2.attack_sophistication
        params := s2.params, lights := s2.traffic_lights }
      hgp s2.vehicles.length 0 s2.vehicles [] []
      (vs2, msgs2, anoms2) hallv hloop
    have hscan := v2vScanAux_motionInv ora s2.params.communication_range
      vs2.length vs2 hloopInv
    rw [← Except.ok.inj h] at hv
    exact ⟨(hscan v hv).2.1, (hscan v hv).2.2⟩

/-- A world with one plain vehicle on a nonzero-length edge. -/
def c5Base : SimState := { baseState with vehicles := [baseVeh] }

/-- The same world after update_params with a negative speed multiplier —
accepted without validation by update_params. -/
def c5State : SimState :=
  update_params c5Base { global_speed_multiplier := some (-1) }

/-- Road geometry giving the current edge a length of 1 degree. -/
def c5Geo : Geo :=
  { nodePos := fun n => if n = "b" then (1, 0) else (0, 0)
    getPath := fun _ _ => [] }

/-- Square-root oracle that is exact on the one squared distance the run
consults. -/
def c5Ora : Oracles :=
  { oraZero with sqrtQ := fun q => if q = 1 then 1 else 0 }

/-- The progress of the first vehicle of a step result (0 when the step
failed or there is no vehicle). -/
def firstProgress (e : Except String StepResult) : ℚ :=
  match e with
  | Except.ok r => ((r.state.vehicles.head?).map (fun v => v.progress)).getD 0
  | Except.error _ => 0

/-- The parameter record c5State carries after the update. -/
def c5Params : Params :=
  { global_speed_multiplier := -1, message_frequency := 1
    detection_sensitivity := 7/10, communication_range := 1/200 }

/-- The loop context of the counterexample tick. -/
def c5Ctx : StepCtx :=
  { step_count := 1, active_attack := none, attack_sophistication := "medium"
    params := c5Params, lights := [] }

/-- The vehicle after the counterexample tick: the negative movement
distance pulls both position and progress backwards. -/
def c5Moved : Vehicle :=
  { baseVeh with speed := 36, lat := -(1/111000), progress := -(1/111000) }

lemma c5_move_eval : _move_vehicle c5Ora c5Geo [] c5Params baseVeh = c5Moved := by
  have f3 : ¬(-((60 : ℚ) * (6/10) / 111 / 3600 * (1/10)) ≥ 1) := by norm_num
  have f4 : ¬((0 : ℚ) + 60 * (6/10) / 111 / 3600 * (1/10) * -1 ≥ 1) := by norm_num
  simp [_move_vehicle, lookupAssoc, c5Ora, c5Geo, oraZero, c5Params, baseVeh, c5Moved, f3, f4]
  norm_num

lemma c5_beacon_eval : beaconStep c5Ora c5Ctx c5Moved = Except.ok (c5Moved, none, []) := by
  have ht : truncQ (10 : ℚ) = 10 := by norm_num [truncQ]
  have hf : Int.fmod (1 : Int) 10 ≠ 0 := by decide
  simp [beaconStep, c5Ctx, c5Params, ht, hf]

lemma c5_stepone : stepOneVehicle c5Ora c5Geo c5Ctx [baseVeh] 0 =
    Except.ok ([c5Moved], none, []) := by
  have hh : hackerLogic c5Ora c5Ctx [baseVeh] baseVeh = (baseVeh, none, []) := rfl
  have hr : recoveryBlock baseVeh = baseVeh := rfl
  have p1 : baseVeh.status = "moving" := rfl
  have hl : c5Ctx.lights = ([] : List (String × Light)) := rfl
  have hp : c5Ctx.params = c5Params := rfl
  simp only [stepOneVehicle, List.get?, hh, hr, p1, hl, hp]
  simp [c5_move_eval, c5_beacon_eval, writeBack]

lemma c5_loop : stepVehiclesLoop c5Ora c5Geo c5Ctx 1 0 [baseVeh] [] [] =
    Except.ok ([c5Moved], [], []) := by
  simp [stepVehiclesLoop, c5_stepone]

lemma v2vScan_singleton (ora : Oracles) (range : ℚ) (v : Vehicle) :
    v2vScan ora range [v] = ([v], []) := rfl

/-- C5 counterexample: after update_params sets the multiplier to -1 (no
validation), one step() drives the vehicle's progress to -1/111000, outside
[0,1] — the claim as stated fails on the code. -/
theorem c5_counterexample : firstProgress (step c5Ora c5Geo c5State) < 0 := by
  have hpd : processDueAttacks c5Ora (preTick c5State) = preTick c5State := rfl
  have hveh : (preTick c5State).vehicles = [baseVeh] := rfl
  have hcr : (preTick c5State).params.communication_range = 1/200 := rfl
  have hctx : (⟨(preTick c5State).step_count, (preTick c5State).active_attack,
      (preTick c5State).attack_sophistication, (preTick c5State).params,
      (preTick c5State).traffic_lights⟩ : StepCtx) = c5Ctx := rfl
  simp only [step, hpd, hveh, hcr, hctx, List.length_singleton, c5_loop]
  simp [firstProgress, v2vScan_singleton]
  norm_num [c5Moved, baseVeh]

/-- A vehicle currently in the arrived state (not stopped, not moving). -/
def c5VehW : Vehicle := { baseVeh with status := "arrived" }

/-- World for the C5 witness: default parameters, one arrived vehicle. -/
def c5BaseW : SimState := { baseState with vehicles := [c5VehW] }

/-- The loop context of the witness tick. -/
def c5CtxW : StepCtx :=
  { step_count := 1, active_attack := none, attack_sophistication := "medium"
    params := baseState.params, lights := [] }

/-- The witness tick's full result. -/
def c5ResW : StepResult :=
  { state := { preTick c5BaseW with
      vehicles := [c5VehW]
      v2v_messages := []
      anomaly_detections := [] }
    messages := [] }

lemma c5w_beacon_eval : beaconStep c5Ora c5CtxW c5VehW = Except.ok (c5VehW, none, []) := by
  have ht : truncQ (10 : ℚ) = 10 := by norm_num [truncQ]
  have hf : Int.fmod (1 : Int) 10 ≠ 0 := by decide
  simp [beaconStep, c5CtxW, baseState, ht, hf]

lemma c5w_stepone : stepOneVehicle c5Ora c5Geo c5CtxW [c5VehW] 0 =
    Except.ok ([c5VehW], none, []) := by
  have hh : hackerLogic c5Ora c5CtxW [c5VehW] c5VehW = (c5VehW, none, []) := rfl
  have hr : recoveryBlock c5VehW = c5VehW := rfl
  have p0 : c5VehW.status = "arrived" := rfl
  simp only [stepOneVehicle, List.get?, hh, hr, p0]
  simp [c5w_beacon_eval, writeBack]

lemma c5w_step_eval : step c5Ora c5Geo c5BaseW = Except.ok c5ResW := by
  have hpd : processDueAttacks c5Ora (preTick c5BaseW) = preTick c5BaseW := rfl
  have hveh : (preTick c5BaseW).vehicles = [c5VehW] := rfl
  have hcr : (preTick c5BaseW).params.communication_range = 1/200 := rfl
  have hctx : (⟨(preTick c5BaseW).step_count, (preTick c5BaseW).active_attack,
      (preTick c5BaseW).attack_sophistication, (preTick c5BaseW).params,
      (preTick c5BaseW).traffic_lights⟩ : StepCtx) = c5CtxW := rfl
  have hloop : stepVehiclesLoop c5Ora c5Geo c5CtxW 1 0 [c5VehW] [] [] =
      Except.ok ([c5VehW], [], []) := by
    simp [stepVehiclesLoop, c5w_stepone]
  simp only [step, hpd, hveh, hcr, hctx, List.length_singleton, hloop]
  simp [v2vScan_singleton, c5ResW]

/-- C5 witness for the amended theorem, applied at a concrete world with the
default (positive) multiplier: the vehicle's progress stays in [0,1]. -/
theorem c5_witness : 0 ≤ c5VehW.progress ∧ c5VehW.progress ≤ 1 :=
  c5_progress_invariant c5Ora c5Geo c5BaseW (by norm_num [c5BaseW, baseState])
    (by intro v hv
        simp only [c5BaseW, List.mem_singleton] at hv
        rw [hv]
        exact ⟨by norm_num [c5VehW, baseVeh], by norm_num [c5VehW, baseVeh],
          by norm_num [c5VehW, baseVeh]⟩)
    c5ResW c5w_step_eval c5VehW (by simp [c5ResW])

/-! ## Claim C6: the recovery dead code -/

/-- A non-attacker vehicle stopped by a completed hack, carrying the
recovery timer the hack handler set (lines 930-932). -/
def c6Veh : Vehicle := { baseVeh with status := "stopped", hack_recovery_timer := 50 }

/-- World containing only the stopped vehicle. -/
def c6State : SimState := { baseState with vehicles := [c6Veh] }

/-- The step result on that world. -/
def c6Res : StepResult :=
  { state := { preTick c6State with
      vehicles := [c6Veh]
      v2v_messages := []
      anomaly_detections := [] }
    messages := [] }

/-- C6 evaluation: a step() on a stopped non-attacker vehicle with a
positive recovery timer leaves the vehicle completely unchanged — the
line 883 continue skips stopped vehicles before the recovery block at
lines 955-962 can run, so the timer is never decremented and the vehicle
never returns to moving; yet the recovery block itself (embedded as
recoveryBlock) would decrement the timer if it were reachable. -/
theorem c6_stopped_vehicle_never_recovers :
    step oraZero geoZero c6State = Except.ok c6Res ∧
    c6Res.state.vehicles = [c6Veh] ∧
    c6Veh.status = "stopped" ∧
    c6Veh.hack_recovery_timer = 50 ∧
    recoveryBlock c6Veh = { c6Veh with hack_recovery_timer := 49 } :=
  ⟨rfl, rfl, rfl, rfl, rfl⟩

/-! ## Claim C9: step() totality versus the beacon period division -/

lemma beaconStep_zero_freq (ora : Oracles) (ctx : StepCtx) (v : Vehicle)
    (h : ctx.params.message_frequency = 0) :
    beaconStep ora ctx v = Except.error "ZeroDivisionError" := by
  simp [beaconStep, h]

lemma beaconStep_zero_period (ora : Oracles) (ctx : StepCtx) (v : Vehicle)
    (h1 : ctx.params.message_frequency ≠ 0)
    (h2 : truncQ (10 / ctx.params.message_frequency) = 0) :
    beaconStep ora ctx v = Except.error "ZeroDivisionError" := by
  simp [beaconStep, h1, h2]

lemma beaconStep_ok (ora : Oracles) (ctx : StepCtx) (v : Vehicle)
    (h1 : ctx.params.message_frequency ≠ 0)
    (h2 : truncQ (10 / ctx.params.message_frequency) ≠ 0) :
    ∃ out, beaconStep ora ctx v = Except.ok out := by
  simp only [beaconStep]
  rw [if_neg h1, if_neg h2]
  split_ifs <;> exact ⟨_, rfl⟩

lemma stepOneVehicle_ok (ora : Oracles) (geo : Geo) (ctx : StepCtx)
    (vs : List Vehicle) (i : Nat)
    (h1 : ctx.params.message_frequency ≠ 0)
    (h2 : truncQ (10 / ctx.params.message_frequency) ≠ 0) :
    ∃ out, stepOneVehicle ora geo ctx vs i = Except.ok out := by
  simp only [stepOneVehicle]
  split
  · exact ⟨_, rfl⟩
  · split_ifs
    · exact ⟨_, rfl⟩
    all_goals
      obtain ⟨⟨bv, bm, ba⟩, hb⟩ := beaconStep_ok ora ctx _ h1 h2
      rw [hb]
      exact ⟨_, rfl⟩

lemma stepVehiclesLoop_ok (ora : Oracles) (geo : Geo) (ctx : StepCtx)
    (h1 : ctx.params.message_frequency ≠ 0)
    (h2 : truncQ (10 / ctx.params.message_frequency) ≠ 0) :
    ∀ (fuel i : Nat) (vs : List Vehicle) (msgs : List BSM) (anoms : List Anomaly),
      ∃ out, stepVehiclesLoop ora geo ctx fuel i vs msgs anoms = Except.ok out := by
  intro fuel
  induction fuel with
  | zero => intro i vs msgs anoms; exact ⟨_, rfl⟩
  | succ n ih =>
    intro i vs msgs anoms
    obtain ⟨⟨ov, om, oa⟩, ho⟩ := stepOneVehicle_ok ora geo ctx vs i h1 h2
    simp only [stepVehiclesLoop, ho]
    exact ih (i + 1) ov _ _

lemma step_ok (ora : Oracles) (geo : Geo) (s : SimState)
    (h1 : s.params.message_frequency ≠ 0)
    (h2 : truncQ (10 / s.params.message_frequency) ≠ 0) :
    ∃ r, step ora geo s = Except.ok r := by
  have hcore := processDueAttacks_core ora (preTick s)
  have h1' : (processDueAttacks ora (preTick s)).params.message_frequency ≠ 0 := by
    rw [hcore.2.1]; exact h1
  have h2' : truncQ (10 / (processDueAttacks ora
      (preTick s)).params.message_frequency) ≠ 0 := by
    rw [hcore.2.1]; exact h2
  obtain ⟨⟨vs2, msgs2, anoms2⟩, hloop⟩ := stepVehiclesLoop_ok ora geo
    { step_count := (processDueAttacks ora (preTick s)).step_count
      active_attack := (processDueAttacks ora (preTick s)).active_attack
      attack_sophistication := (processDueAttacks ora (preTick s)).attack_sophistication
      params := (processDueAttacks ora (preTick s)).params
      lights := (processDueAttacks ora (preTick s)).traffic_lights }
    h1' h2' (processDueAttacks ora (preTick s)).vehicles.length 0
    (processDueAttacks ora (preTick s)).vehicles [] []
  simp only [step, hloop]
  exact ⟨_, rfl⟩

/-- C9 (amended): step() after an arbitrary update_params completes and
returns a result exactly when the beacon period computation stays sound:
message_frequency nonzero and int(10/frequency) nonzero (in particular any
frequency in (0,10]); communication_range needs no restriction. -/
theorem c9_no_crash_amended (ora : Oracles) (geo : Geo) (s : SimState) (u : ParamsUpdate)
    (h1 : (update_params s u).params.message_frequency ≠ 0)
    (h2 : truncQ (10 / (update_params s u).params.message_frequency) ≠ 0) :
    ∃ r, step ora geo (update_params s u) = Except.ok r :=
  step_ok ora geo (update_params s u) h1 h2

/-- C9 witness: updating only the communication range to 0 (the claim's
example of an accepted parameter map) keeps step() total. -/
theorem c9_witness :
    ∃ r, step oraZero geoZero
      (update_params c5BaseW { communication_range := some 0 }) = Except.ok r :=
  c9_no_crash_amended oraZero geoZero c5BaseW { communication_range := some 0 }
    (by norm_num [update_params, c5BaseW, baseState])
    (by norm_num [update_params, c5BaseW, baseState, truncQ])

lemma stepOneVehicle_err (ora : Oracles) (geo : Geo) (ctx : StepCtx)
    (vs : List Vehicle) (i : Nat) (v : Vehicle) (hv : vs.get? i = some v)
    (hs : ¬v.status = "stopped")
    (hb : ∀ w, beaconStep ora ctx w = Except.error "ZeroDivisionError") :
    stepOneVehicle ora geo ctx vs i = Except.error "ZeroDivisionError" := by
  simp only [stepOneVehicle, hv]
  rw [if_neg hs, hb]

/-- Context of the message_frequency = 0 counterexample tick. -/
def c9aCtx : StepCtx :=
  { step_count := 1, active_attack := none, attack_sophistication := "medium"
    params := { global_speed_multiplier := 1/2, message_frequency := 0
                detection_sensitivity := 7/10, communication_range := 1/200 }
    lights := [] }

/-- Context of the message_frequency = 20 counterexample tick. -/
def c9bCtx : StepCtx :=
  { step_count := 1, active_attack := none, attack_sophistication := "medium"
    params := { global_speed_multiplier := 1/2, message_frequency := 20
                detection_sensitivity := 7/10, communication_range := 1/200 }
    lights := [] }

/-- C9 counterexample: update_params accepts message_frequency = 0 and the
positive value 20, and the next step() raises ZeroDivisionError in both
worlds (10/0 raises; int(10/20) = 0 and the modulo raises), refuting
"no operation raises" as stated. -/
theorem c9_counterexample :
    step oraZero geoZero (update_params c5BaseW { message_frequency := some 0 }) =
      Except.error "ZeroDivisionError" ∧
    step oraZero geoZero (update_params c5BaseW { message_frequency := some 20 }) =
      Except.error "ZeroDivisionError" := by
  constructor
  · have hpd : processDueAttacks oraZero
        (preTick (update_params c5BaseW { message_frequency := some 0 })) =
        preTick (update_params c5BaseW { message_frequency := some 0 }) := rfl
    have hveh : (preTick (update_params c5BaseW { message_frequency := some 0 })).vehicles =
        [c5VehW] := rfl
    have hctx : (⟨(preTick (update_params c5BaseW { message_frequency := some 0 })).step_count,
        (preTick (update_params c5BaseW { message_frequency := some 0 })).active_attack,
        (preTick (update_params c5BaseW { message_frequency := some 0 })).attack_sophistication,
        (preTick (update_params c5BaseW { message_frequency := some 0 })).params,
        (preTick (update_params c5BaseW { message_frequency := some 0 })).traffic_lights⟩ :
        StepCtx) = c9aCtx := rfl
    have hmf : c9aCtx.params.message_frequency = 0 := rfl
    have hso := stepOneVehicle_err oraZero geoZero c9aCtx [c5VehW] 0 c5VehW rfl
      (by simp [c5VehW, baseVeh])
      (fun w => beaconStep_zero_freq oraZero c9aCtx w hmf)
    have hloop : stepVehiclesLoop oraZero geoZero c9aCtx 1 0 [c5VehW] [] [] =
        Except.error "ZeroDivisionError" := by
      simp [stepVehiclesLoop, hso]
    simp only [step, hpd, hveh, hctx, List.length_singleton, hloop]
  · have hpd : processDueAttacks oraZero
        (preTick (update_params c5BaseW { message_frequency := some 20 })) =
        preTick (update_params c5BaseW { message_frequency := some 20 }) := rfl
    have hveh : (preTick (update_params c5BaseW { message_frequency := some 20 })).vehicles =
        [c5VehW] := rfl
    have hctx : (⟨(preTick (update_params c5BaseW { message_frequency := some 20 })).step_count,
        (preTick (update_params c5BaseW { message_frequency := some 20 })).active_attack,
        (preTick (update_params c5BaseW { message_frequency := some 20 })).attack_sophistication,
        (preTick (update_params c5BaseW { message_frequency := some 20 })).params,
        (preTick (update_params c5BaseW { message_frequency := some 20 })).traffic_lights⟩ :
        StepCtx) = c9bCtx := rfl
    have hmf : c9bCtx.params.message_frequency ≠ 0 := by norm_num [c9bCtx]
    have hper : truncQ (10 / c9bCtx.params.message_frequency) = 0 := by
      norm_num [c9bCtx, truncQ]
    have hso := stepOneVehicle_err oraZero geoZero c9bCtx [c5VehW] 0 c5VehW rfl
      (by simp [c5VehW, baseVeh])
      (fun w => beaconStep_zero_period oraZero c9bCtx w hmf hper)
    have hloop : stepVehiclesLoop oraZero geoZero c9bCtx 1 0 [c5VehW] [] [] =
        Except.error "ZeroDivisionError" := by
      simp [stepVehiclesLoop, hso]
    simp only [step, hpd, hveh, hctx, List.length_singleton, hloop]

/-! ## Claim C8: the beacon period (int truncation versus the spec's round) -/

/-- Parameters with message_frequency 1.5, where int and round part ways. -/
def c8Params : Params :=
  { global_speed_multiplier := 1/2, message_frequency := 3/2
    detection_sensitivity := 7/10, communication_range := 1/200 }

/-- World at step_count 5 (the coming tick is 6) with one arrived vehicle. -/
def c8State : SimState :=
  { baseState with vehicles := [c5VehW], step_count := 5, params := c8Params }

/-- The loop context of that tick. -/
def c8Ctx : StepCtx :=
  { step_count := 6, active_attack := none, attack_sophistication := "medium"
    params := c8Params, lights := [] }

/-- The beacon the tick emits. -/
def c8Msg : BSM :=
  { id := "msg_6_v_0", sender_id := "v_0", timestamp := 0
    lat := 0, lon := 0, speed := 0, heading := 0 }

/-- The vehicle after sending it. -/
def c8Veh2 : Vehicle := { c5VehW with messages_sent := 1 }

lemma c8_beacon_eval : beaconStep oraZero c8Ctx c5VehW =
    Except.ok (c8Veh2, some c8Msg, []) := by
  have ht : truncQ ((10 : ℚ) / (3/2)) = 6 := by norm_num [truncQ]
  have hf : Int.fmod (6 : Int) 6 = 0 := by decide
  simp [beaconStep, c8Ctx, c8Params, ht, hf, _detect_anomaly, oraZero,
    c8Veh2, c8Msg, c5VehW, baseVeh]
  norm_num
  rfl

lemma c8_stepone : stepOneVehicle oraZero geoZero c8Ctx [c5VehW] 0 =
    Except.ok ([c8Veh2], some c8Msg, []) := by
  have hh : hackerLogic oraZero c8Ctx [c5VehW] c5VehW = (c5VehW, none, []) := rfl
  have hr : recoveryBlock c5VehW = c5VehW := rfl
  have p0 : c5VehW.status = "arrived" := rfl
  simp only [stepOneVehicle, List.get?, hh, hr, p0]
  simp [c8_beacon_eval, writeBack]

/-- The tick's full result. -/
def c8Res : StepResult :=
  { state := { preTick c8State with
      vehicles := [c8Veh2]
      v2v_messages := []
      anomaly_detections := [] }
    messages := [c8Msg] }

lemma c8_step_eval : step oraZero geoZero c8State = Except.ok c8Res := by
  have hpd : processDueAttacks oraZero (preTick c8State) = preTick c8State := rfl
  have hveh : (preTick c8State).vehicles = [c5VehW] := rfl
  have hcr : (preTick c8State).params.communication_range = 1/200 := rfl
  have hctx : (⟨(preTick c8State).step_count, (preTick c8State).active_attack,
      (preTick c8State).attack_sophistication, (preTick c8State).params,
      (preTick c8State).traffic_lights⟩ : StepCtx) = c8Ctx := rfl
  have hloop : stepVehiclesLoop oraZero geoZero c8Ctx 1 0 [c5VehW] [] [] =
      Except.ok ([c8Veh2], [c8Msg], []) := by
    simp [stepVehiclesLoop, c8_stepone]
  simp only [step, hpd, hveh, hcr, hctx, List.length_singleton, hloop]
  simp [v2vScan_singleton, c8Res]

/-- Modelled from the spec: the beacon period the spec prescribes,
round(10 / messageFrequency) with arithmetic rounding (§4.4), to be
compared with the code's int truncation. -/
def beaconSpecPeriod (mf : ℚ) : Int := round (10 / mf)

/-- C8 counterexample: at message_frequency 1.5 and tick 6, step() emits a
beacon (the code period int(10/1.5) = 6 divides tick 6), while the claim's
round(10/1.5) = 7 does not divide 6 — so a beacon appears on a tick where
the claimed rounding rule says none should. -/
theorem c8_counterexample :
    (step oraZero geoZero c8State).toOption.map (fun r => r.messages.length) = some 1 ∧
    Int.fmod ((c8State.step_count : Int) + 1)
      (beaconSpecPeriod c8State.params.message_frequency) ≠ 0 := by
  constructor
  · rw [c8_step_eval]; rfl
  · have h7 : beaconSpecPeriod c8State.params.message_frequency = 7 := by
      norm_num [beaconSpecPeriod, c8State, c8Params, round_eq]
    rw [h7]
    decide

lemma beaconStep_emits_iff (ora : Oracles) (ctx : StepCtx) (v : Vehicle)
    (out : Vehicle × Option BSM × List Anomaly)
    (hout : beaconStep ora ctx v = Except.ok out) :
    out.2.1.isSome = true ↔
      Int.fmod (ctx.step_count : Int) (truncQ (10 / ctx.params.message_frequency)) = 0 := by
  simp only [beaconStep] at hout
  by_cases hA : ctx.params.message_frequency = 0
  · rw [if_pos hA] at hout; exact Except.noConfusion hout
  rw [if_neg hA] at hout
  by_cases hB : truncQ (10 / ctx.params.message_frequency) = 0
  · rw [if_pos hB] at hout; exact Except.noConfusion hout
  rw [if_neg hB] at hout
  by_cases hC : Int.fmod (ctx.step_count : Int) (truncQ (10 / ctx.params.message_frequency)) = 0
  · rw [if_pos hC] at hout
    split at hout <;> (injection hout with h; subst h; simp [hC])
  · rw [if_neg hC] at hout
    injection hout with h
    subst h
    simp [hC]

/-- C8 (amended): during step(), a beacon is generated for a non-stopped
vehicle exactly when the tick count modulo int(10 / messageFrequency)
equals 0, where int truncates toward zero — the code truncates the period
rather than rounding it as the spec's formula says. -/
theorem c8_beacon_iff_truncated_period (ora : Oracles) (geo : Geo) (ctx : StepCtx)
    (vs : List Vehicle) (i : Nat) (v : Vehicle)
    (out : List Vehicle × Option BSM × List Anomaly)
    (hv : vs.get? i = some v) (hs : ¬v.status = "stopped")
    (hout : stepOneVehicle ora geo ctx vs i = Except.ok out) :
    out.2.1.isSome = true ↔
      Int.fmod (ctx.step_count : Int) (truncQ (10 / ctx.params.message_frequency)) = 0 := by
  simp only [stepOneVehicle, hv] at hout
  rw [if_neg hs] at hout
  split at hout
  · exact Except.noConfusion hout
  · rename_i v2 msg2 anoms2 heq
    injection hout with h
    subst h
    simpa using beaconStep_emits_iff ora ctx _ _ heq

/-- C8 witness for the amended theorem: the tick-6 iteration above did emit
a beacon, and indeed 6 mod int(10/1.5) = 6 mod 6 = 0. -/
theorem c8_witness :
    (([c8Veh2], some c8Msg, ([] : List Anomaly)) :
        List Vehicle × Option BSM × List Anomaly).2.1.isSome = true ↔
      Int.fmod (c8Ctx.step_count : Int)
        (truncQ (10 / c8Ctx.params.message_frequency)) = 0 :=
  c8_beacon_iff_truncated_period oraZero geoZero c8Ctx [c5VehW] 0 c5VehW
    ([c8Veh2], some c8Msg, []) rfl (by decide) c8_stepone

end V2XSim
